import Mathlib

/-!
# ST75256 LCD panel driver: shallow embedding and verified properties

Source: `components/ST75256/esp_lcd_st75256.c` and `esp_lcd_st75256.h`.

Modelling conventions.

* C `int` values are `Int`.  Signed overflow is undefined behaviour in C, so
  sums and differences of `int`s are exact here.  Conversions to `uint8_t`
  and `size_t` wrap, and are written out as `% 256` and `% 2 ^ 32`
  (`size_t` is 32 bits wide on the ESP32 targets of the driver).
  Where a statement ranges over gaps and coordinates that can leave the range
  of `int`, the variants named `_int32` give the two's-complement results of
  the 32-bit targets, and hypotheses `in_int_range` keep the exact results in
  range.
* C `/` on `int` truncates towards zero: `Int.tdiv`.
* A pointer to a byte buffer is modelled by the list of bytes it points to.
  The `NULL` guards on buffers are therefore not represented.
* The command channel, GPIO driver and RTOS delay are external.  Every call
  to them is appended to `World.trace`.  The result of the `n`-th channel
  call (counted from zero over the whole trace) is `Env.chan n`.
* The panel structure is passed and returned explicitly by the operations
  that write to it.
-/

namespace ST75256

/-! ## Error codes (esp_err.h) -/

abbrev esp_err_t := Int

def ESP_OK : esp_err_t := 0
def ESP_ERR_NO_MEM : esp_err_t := 0x101
def ESP_ERR_INVALID_ARG : esp_err_t := 0x102

/-! ## Command bytes (lines 25-55 of esp_lcd_st75256.c) -/

def ST75256_CMD_SET_COLUMN_RANGE : Int := 0x15
def ST75256_CMD_SET_PAGE_RANGE : Int := 0x75
def ST75256_CMD_WRITE_RAM : Int := 0x5C
def ST75256_CMD_DISP_OFF : Int := 0xAE
def ST75256_CMD_DISP_ON : Int := 0xAF
def ST75256_CMD_INVERT_OFF : Int := 0xA6
def ST75256_CMD_INVERT_ON : Int := 0xA7
def ST75256_CMD_POWER_SAVE_ON : Int := 0x95
def ST75256_CMD_POWER_SAVE_OFF : Int := 0x94
def ST75256_CMD_ALL_PIXEL_OFF : Int := 0x22
def ST75256_CMD_ALL_PIXEL_ON : Int := 0x23
def ST75256_CMD_SET_DATA_MSB : Int := 0x08
def ST75256_CMD_SET_DATA_LSB : Int := 0x0C
def ST75256_CMD_DISPLAY_CONTROL : Int := 0xCA
def ST75256_CMD_SET_CONTRAST : Int := 0x81
def ST75256_CMD_SET_POWER_CONTROL : Int := 0x20
def ST75256_CMD_SET_DISPLAY_MODE : Int := 0xF0
def ST75256_CMD_SET_SCAN_DIRECTION : Int := 0xBC
def ST75256_CMD_SET_GRAYSCALE_TABLE : Int := 0x20
def ST75256_CMD_DISABLE_AUTO_READ : Int := 0xD7
def ST75256_CMD_ANALOG_CIRCUIT_SET : Int := 0x32
def ST75256_CMD_SET_1 : Int := 0x30
def ST75256_CMD_SET_2 : Int := 0x31

/-- Line 55: `#define ST75256_TOTAL_PAGES 0x14`. -/
def ST75256_TOTAL_PAGES : Int := 0x14

/-- Lines 58-61: the predefined grayscale table. -/
def grayscale_table : List Nat :=
  [0x01, 0x03, 0x05, 0x07, 0x09, 0x0B, 0x0D, 0x10,
   0x11, 0x13, 0x15, 0x17, 0x19, 0x1B, 0x1D, 0x1F]

/-! ## Integer conversions -/

/-- Conversion of an `int` value to `uint8_t`. -/
def uint8_t (v : Int) : Nat := (v % 256).toNat

/-- Conversion of an `int` value to `size_t` (32 bits). -/
def size_t (v : Int) : Nat := (v % 4294967296).toNat

/-! ## Data model -/

/-- Lines 64-76: the private panel structure.  `base` (the table of operation
pointers) is represented by `PanelOp` below. -/
structure st75256_panel_t where
  io : Nat
  height : Nat
  width : Nat
  reset_gpio_num : Int
  x_gap : Int
  y_gap : Int
  bits_per_pixel : Nat
  reset_level : Bool
  swap_axes : Bool
  y_mirror : Bool
  deriving DecidableEq, Repr

/-- The vendor configuration of esp_lcd_st75256.h, lines 23-33. -/
structure esp_lcd_panel_st75256_config_t where
  orientation : Nat
  deriving DecidableEq, Repr

/-- The fields of the framework's `esp_lcd_panel_dev_config_t` that the
driver reads. -/
structure esp_lcd_panel_dev_config_t where
  reset_gpio_num : Int
  bits_per_pixel : Nat
  reset_active_high : Bool
  vendor_config : Option esp_lcd_panel_st75256_config_t
  deriving DecidableEq, Repr

/-- One call to an external collaborator, with its arguments. -/
inductive Event where
  | tx_param (lcd_cmd : Int) (param : List Nat) (param_size : Nat)
  | tx_color (lcd_cmd : Int) (color : List Nat) (color_size : Nat)
  | gpio_config (pin_bit_mask : Nat)
  | gpio_reset_pin (gpio_num : Int)
  | gpio_set_level (gpio_num : Int) (level : Bool)
  | vTaskDelay_ms (ms : Nat)
  deriving DecidableEq, Repr

/-- Whether the event is a transaction on the command channel. -/
def Event.isTx : Event → Bool
  | Event.tx_param _ _ _ => true
  | Event.tx_color _ _ _ => true
  | _ => false

/-- Whether the event is a call to the GPIO driver. -/
def Event.isGpio : Event → Bool
  | Event.gpio_config _ => true
  | Event.gpio_reset_pin _ => true
  | Event.gpio_set_level _ _ => true
  | _ => false

/-- A command byte sent without parameters: `tx_param(io, c, NULL, 0)`. -/
def cmd (c : Int) : Event := Event.tx_param c [] 0

/-- A data transaction carrying a whole buffer: `tx_color(io, -1, bs, len bs)`. -/
def data (bs : List Nat) : Event := Event.tx_color (-1) bs bs.length

/-- What the environment answers: the result of the `n`-th channel call,
whether `calloc` succeeds, and the result of `gpio_config`. -/
structure Env where
  chan : Nat → esp_err_t
  calloc_ok : Bool
  gpio_config_rc : esp_err_t

/-- The observable state outside the panel structure: the calls made so far
and the static scratch buffer `s_remap_buffer` of line 323. -/
structure World where
  trace : List Event
  s_remap_buffer : List Nat
  deriving DecidableEq, Repr

/-- The channel transactions of a trace, in call order. -/
def txs (t : List Event) : List Event := t.filter Event.isTx

/-- Number of channel calls made so far. -/
def World.calls (w : World) : Nat := (txs w.trace).length

/-- A channel on which every call succeeds. -/
def okEnv : Env := { chan := fun _ => ESP_OK, calloc_ok := true, gpio_config_rc := ESP_OK }

/-- A world in which nothing has been called yet. -/
def World.fresh : World := { trace := [], s_remap_buffer := List.replicate (16 * 256) 0 }

/-! ## Channel primitives and error propagation -/

/-- One channel call: the event is recorded and the environment answers. -/
def channel_call (env : Env) (ev : Event) (w : World) : esp_err_t × World :=
  (env.chan w.calls, { w with trace := w.trace ++ [ev] })

/-- Framework call `esp_lcd_panel_io_tx_param(io, lcd_cmd, param, param_size)`. -/
def esp_lcd_panel_io_tx_param (env : Env) (_io : Nat) (lcd_cmd : Int) (param : List Nat)
    (param_size : Nat) : World → esp_err_t × World :=
  channel_call env (Event.tx_param lcd_cmd param param_size)

/-- Framework call `esp_lcd_panel_io_tx_color(io, lcd_cmd, color, color_size)`. -/
def esp_lcd_panel_io_tx_color (env : Env) (_io : Nat) (lcd_cmd : Int) (color : List Nat)
    (color_size : Nat) : World → esp_err_t × World :=
  channel_call env (Event.tx_color lcd_cmd color color_size)

/-- The macro of esp_check.h: evaluate `x`; if its result is not `ESP_OK`
return it from the enclosing function, otherwise go on with `rest`. -/
def ESP_RETURN_ON_ERROR (x : World → esp_err_t × World) (rest : World → esp_err_t × World)
    (w : World) : esp_err_t × World :=
  let r := x w
  if r.1 ≠ ESP_OK then r else rest r.2

/-- The statement `return ESP_OK;`. -/
def return_ESP_OK (w : World) : esp_err_t × World := (ESP_OK, w)

/-- Lines 82-85. -/
def st75256_set_cmd_set_1 (env : Env) (io : Nat) : World → esp_err_t × World :=
  esp_lcd_panel_io_tx_param env io ST75256_CMD_SET_1 [] 0

/-- Lines 88-91. -/
def st75256_set_cmd_set_2 (env : Env) (io : Nat) : World → esp_err_t × World :=
  esp_lcd_panel_io_tx_param env io ST75256_CMD_SET_2 [] 0

/-- Lines 94-99. -/
def st75256_set_scan_direction (env : Env) (st75256 : st75256_panel_t) (dir : Nat) :
    World → esp_err_t × World :=
  ESP_RETURN_ON_ERROR (st75256_set_cmd_set_1 env st75256.io) <|
  ESP_RETURN_ON_ERROR
    (esp_lcd_panel_io_tx_param env st75256.io ST75256_CMD_SET_SCAN_DIRECTION [] 0) <|
  esp_lcd_panel_io_tx_color env st75256.io (-1) [dir] 1

/-! ## Mirror formula and framebuffer remap -/

/-- Lines 448-455: returns the new `(start, end)`. -/
def st75256_apply_mirror (start stop : Int) : Int × Int :=
  let total_height : Int := (ST75256_TOTAL_PAGES + 1) * 8
  let tmp_start := total_height - stop
  let tmp_end := total_height - start
  (tmp_start, tmp_end)

/-- Lines 482-496: the body of the innermost loop for one `bit`. -/
def remap_bit (src_byte page x : Nat) (dst : List Nat) (bit : Nat) : List Nat :=
  if src_byte &&& (1 <<< bit) ≠ 0 then
    let LVGL_Y := page * 8 + bit
    let LVGL_X := x
    let dst_byte := LVGL_Y * 16 + LVGL_X / 8
    let dst_bit := LVGL_X % 8
    if (dst_byte : Int) < 0 ∨ dst_byte ≥ 16 * 256 then dst
    else dst.set dst_byte ((dst.getD dst_byte 0 ||| (1 <<< dst_bit)) % 256)
  else dst

/-- Lines 477-497: the body of the middle loop for one column `x`. -/
def remap_column (src : List Nat) (page : Nat) (dst : List Nat) (x : Nat) : List Nat :=
  let src_byte := src.getD (x + page * 128) 0
  if src_byte = 0 then dst
  else (List.range 8).foldl (remap_bit src_byte page x) dst

/-- Lines 475-498: the body of the outer loop for one `page`. -/
def remap_page (src : List Nat) (dst : List Nat) (page : Nat) : List Nat :=
  (List.range 128).foldl (remap_column src page) dst

/-- Lines 466-500: returns the destination buffer after the remap. -/
def st75256_remap_swapped_frame (src dst : List Nat) : List Nat :=
  (List.range 32).foldl (remap_page src) dst

/-! ## Panel operations -/

/-- The rectangle `(x_start, y_start, x_end, y_end)` as local variables of
`panel_st75256_draw_bitmap`. -/
structure Rect where
  x_start : Int
  y_start : Int
  x_end : Int
  y_end : Int
  deriving DecidableEq, Repr

/-- Lines 293-334 of `panel_st75256_draw_bitmap`, the updates of the four
coordinate variables: gap, then mirror, then axis exchange. -/
def panel_st75256_draw_bitmap_rect (st75256 : st75256_panel_t)
    (x_start y_start x_end y_end : Int) : Rect :=
  let x_start := x_start + st75256.x_gap
  let x_end := x_end + st75256.x_gap
  let y_start := y_start + st75256.y_gap
  let y_end := y_end + st75256.y_gap
  if st75256.swap_axes then
    let m := if st75256.y_mirror then st75256_apply_mirror x_start x_end else (x_start, x_end)
    { x_start := y_start, y_start := m.1, x_end := y_end, y_end := m.2 }
  else
    let m := if st75256.y_mirror then st75256_apply_mirror y_start y_end else (y_start, y_end)
    { x_start := x_start, y_start := m.1, x_end := x_end, y_end := m.2 }

/-- Lines 323-326 and 333: the scratch buffer after the branch on `swap_axes`
(zeroed and remapped when set, untouched otherwise). -/
def panel_st75256_draw_bitmap_scratch (st75256 : st75256_panel_t) (color_data : List Nat)
    (w : World) : World :=
  if st75256.swap_axes then
    { w with s_remap_buffer :=
        st75256_remap_swapped_frame color_data (List.replicate (16 * 256) 0) }
  else w

/-- Lines 284-368. -/
def panel_st75256_draw_bitmap (env : Env) (st75256 : st75256_panel_t)
    (x_start y_start x_end y_end : Int) (color_data : List Nat) (w : World) :
    esp_err_t × World :=
  let io := st75256.io
  let r := panel_st75256_draw_bitmap_rect st75256 x_start y_start x_end y_end
  let w1 := panel_st75256_draw_bitmap_scratch st75256 color_data w
  let color_data_local := if st75256.swap_axes then w1.s_remap_buffer else color_data
  let page_start := uint8_t (r.y_start.tdiv 8)
  let page_end := uint8_t ((r.y_end - 1).tdiv 8)
  let num_pages := uint8_t ((page_end : Int) - (page_start : Int) + 1)
  let width : Int := r.x_end - r.x_start
  let data_size := size_t ((num_pages : Int) * width)
  (ESP_RETURN_ON_ERROR (st75256_set_cmd_set_1 env io) <|
   ESP_RETURN_ON_ERROR (esp_lcd_panel_io_tx_param env io ST75256_CMD_SET_COLUMN_RANGE [] 0) <|
   ESP_RETURN_ON_ERROR
     (esp_lcd_panel_io_tx_color env io (-1) [uint8_t r.x_start, uint8_t (r.x_end - 1)] 2) <|
   ESP_RETURN_ON_ERROR (esp_lcd_panel_io_tx_param env io ST75256_CMD_SET_PAGE_RANGE [] 0) <|
   ESP_RETURN_ON_ERROR (esp_lcd_panel_io_tx_color env io (-1) [page_start, page_end] 2) <|
   ESP_RETURN_ON_ERROR (esp_lcd_panel_io_tx_param env io ST75256_CMD_WRITE_RAM [] 0) <|
   ESP_RETURN_ON_ERROR (esp_lcd_panel_io_tx_color env io (-1) color_data_local data_size) <|
   return_ESP_OK) w1

/-- Lines 275-277: the clearing loop with `n` iterations left, followed by
the rest of the function. -/
def panel_st75256_init_clear (env : Env) (io : Nat) :
    Nat → (World → esp_err_t × World) → World → esp_err_t × World
  | 0, rest => rest
  | n + 1, rest =>
    ESP_RETURN_ON_ERROR (esp_lcd_panel_io_tx_color env io (-1) [0x00] 1)
      (panel_st75256_init_clear env io n rest)

/-- Lines 197-282. -/
def panel_st75256_init (env : Env) (st75256 : st75256_panel_t) : World → esp_err_t × World :=
  let io := st75256.io
  let total_bytes : Nat := 256 * 16
  ESP_RETURN_ON_ERROR (st75256_set_cmd_set_1 env io) <|
  ESP_RETURN_ON_ERROR (esp_lcd_panel_io_tx_param env io ST75256_CMD_DISP_OFF [] 0) <|
  ESP_RETURN_ON_ERROR (esp_lcd_panel_io_tx_param env io ST75256_CMD_POWER_SAVE_OFF [] 0) <|
  ESP_RETURN_ON_ERROR (esp_lcd_panel_io_tx_param env io ST75256_CMD_SET_DATA_MSB [] 0) <|
  ESP_RETURN_ON_ERROR (st75256_set_cmd_set_2 env io) <|
  ESP_RETURN_ON_ERROR (esp_lcd_panel_io_tx_param env io ST75256_CMD_DISABLE_AUTO_READ [] 0) <|
  ESP_RETURN_ON_ERROR (esp_lcd_panel_io_tx_color env io (-1) [0x9F] 1) <|
  ESP_RETURN_ON_ERROR (esp_lcd_panel_io_tx_param env io ST75256_CMD_ANALOG_CIRCUIT_SET [] 0) <|
  ESP_RETURN_ON_ERROR (esp_lcd_panel_io_tx_color env io (-1) [0x00, 0x01, 0x00] 3) <|
  ESP_RETURN_ON_ERROR (esp_lcd_panel_io_tx_param env io ST75256_CMD_SET_GRAYSCALE_TABLE [] 0) <|
  ESP_RETURN_ON_ERROR (esp_lcd_panel_io_tx_color env io (-1) grayscale_table 16) <|
  ESP_RETURN_ON_ERROR (st75256_set_cmd_set_1 env io) <|
  ESP_RETURN_ON_ERROR (esp_lcd_panel_io_tx_param env io ST75256_CMD_SET_CONTRAST [] 0) <|
  ESP_RETURN_ON_ERROR (esp_lcd_panel_io_tx_color env io (-1) [0x1E, 0x05] 2) <|
  ESP_RETURN_ON_ERROR (esp_lcd_panel_io_tx_param env io ST75256_CMD_SET_POWER_CONTROL [] 0) <|
  ESP_RETURN_ON_ERROR (esp_lcd_panel_io_tx_color env io (-1) [0x0B] 1) <|
  ESP_RETURN_ON_ERROR (esp_lcd_panel_io_tx_param env io ST75256_CMD_DISPLAY_CONTROL [] 0) <|
  ESP_RETURN_ON_ERROR (esp_lcd_panel_io_tx_color env io (-1) [0x00, 0x7F, 0x20] 3) <|
  ESP_RETURN_ON_ERROR (esp_lcd_panel_io_tx_param env io ST75256_CMD_SET_DISPLAY_MODE [] 0) <|
  ESP_RETURN_ON_ERROR (esp_lcd_panel_io_tx_color env io (-1) [0x10] 1) <|
  ESP_RETURN_ON_ERROR (esp_lcd_panel_io_tx_param env io ST75256_CMD_INVERT_OFF [] 0) <|
  ESP_RETURN_ON_ERROR (st75256_set_cmd_set_1 env io) <|
  ESP_RETURN_ON_ERROR (esp_lcd_panel_io_tx_param env io ST75256_CMD_SET_COLUMN_RANGE [] 0) <|
  ESP_RETURN_ON_ERROR (esp_lcd_panel_io_tx_color env io (-1) [0, 255] 2) <|
  ESP_RETURN_ON_ERROR (esp_lcd_panel_io_tx_param env io ST75256_CMD_SET_PAGE_RANGE [] 0) <|
  ESP_RETURN_ON_ERROR (esp_lcd_panel_io_tx_color env io (-1) [0, 40] 2) <|
  ESP_RETURN_ON_ERROR (esp_lcd_panel_io_tx_param env io ST75256_CMD_WRITE_RAM [] 0) <|
  panel_st75256_init_clear env io total_bytes <|
  return_ESP_OK

/-- Lines 370-377. -/
def panel_st75256_invert_color (env : Env) (st75256 : st75256_panel_t)
    (invert_color_data : Bool) : World → esp_err_t × World :=
  let io := st75256.io
  let c := if invert_color_data then ST75256_CMD_INVERT_ON else ST75256_CMD_INVERT_OFF
  ESP_RETURN_ON_ERROR (st75256_set_cmd_set_1 env io) <|
  esp_lcd_panel_io_tx_param env io c [] 0

/-- Lines 379-407: returns the result, the panel structure as left by the
call, and the world. -/
def panel_st75256_mirror (env : Env) (st75256 : st75256_panel_t) (mirror_x mirror_y : Bool)
    (w : World) : esp_err_t × st75256_panel_t × World :=
  let io := st75256.io
  let dir : Nat := if st75256.swap_axes then 0x04 else 0x00
  let dir := if mirror_x then dir ||| 0x02 else dir
  if mirror_y then
    let dir := dir ||| 0x01
    let st75256 := { st75256 with y_mirror := true }
    let r := (ESP_RETURN_ON_ERROR (esp_lcd_panel_io_tx_param env io ST75256_CMD_SET_DATA_MSB [] 0) <|
      st75256_set_scan_direction env st75256 dir) w
    (r.1, st75256, r.2)
  else
    let st75256 := { st75256 with y_mirror := false }
    let r := (ESP_RETURN_ON_ERROR (esp_lcd_panel_io_tx_param env io ST75256_CMD_SET_DATA_LSB [] 0) <|
      st75256_set_scan_direction env st75256 dir) w
    (r.1, st75256, r.2)

/-- Lines 409-416. -/
def panel_st75256_swap_xy (env : Env) (st75256 : st75256_panel_t) (swap_axes : Bool)
    (w : World) : esp_err_t × st75256_panel_t × World :=
  let st75256 := { st75256 with swap_axes := swap_axes }
  let dir : Nat := if swap_axes then 0x04 else 0x00
  let r := st75256_set_scan_direction env st75256 dir w
  (r.1, st75256, r.2)

/-- Lines 418-424. -/
def panel_st75256_set_gap (st75256 : st75256_panel_t) (x_gap y_gap : Int) (w : World) :
    esp_err_t × st75256_panel_t × World :=
  (ESP_OK, { st75256 with x_gap := x_gap, y_gap := y_gap }, w)

/-- An RTOS delay of `ms` milliseconds: `vTaskDelay(pdMS_TO_TICKS(ms))`. -/
def vTaskDelay_ms (ms : Nat) (w : World) : World :=
  { w with trace := w.trace ++ [Event.vTaskDelay_ms ms] }

/-- Lines 426-438. -/
def panel_st75256_disp_on_off (env : Env) (st75256 : st75256_panel_t) (on_off : Bool) :
    World → esp_err_t × World :=
  let io := st75256.io
  let c := if on_off then ST75256_CMD_DISP_ON else ST75256_CMD_DISP_OFF
  ESP_RETURN_ON_ERROR (st75256_set_cmd_set_1 env io) <|
  ESP_RETURN_ON_ERROR (esp_lcd_panel_io_tx_param env io c [] 0) <|
  fun w => if on_off then (ESP_OK, vTaskDelay_ms 10 w) else (ESP_OK, w)

/-- Lines 185-195. -/
def panel_st75256_reset (st75256 : st75256_panel_t) (w : World) : esp_err_t × World :=
  if st75256.reset_gpio_num ≥ 0 then
    let w := { w with trace := w.trace ++
      [Event.gpio_set_level st75256.reset_gpio_num st75256.reset_level] }
    let w := vTaskDelay_ms 10 w
    let w := { w with trace := w.trace ++
      [Event.gpio_set_level st75256.reset_gpio_num (!st75256.reset_level)] }
    let w := vTaskDelay_ms 120 w
    (ESP_OK, w)
  else (ESP_OK, w)

/-- Lines 174-183. -/
def panel_st75256_del (st75256 : st75256_panel_t) (w : World) : esp_err_t × World :=
  if st75256.reset_gpio_num ≥ 0 then
    (ESP_OK, { w with trace := w.trace ++ [Event.gpio_reset_pin st75256.reset_gpio_num] })
  else (ESP_OK, w)

/-- Lines 111-172.  `io`, `panel_dev_config` are `none` for a `NULL`
argument; `ret_panel` says whether the out-pointer is non-`NULL`.  The second
component of the result is what line 158 stores in `*ret_panel`: `none` when
that line is not reached, so that nothing is written. -/
def esp_lcd_new_panel_st75256 (env : Env) (io : Option Nat)
    (panel_dev_config : Option esp_lcd_panel_dev_config_t) (ret_panel : Bool) (w : World) :
    esp_err_t × Option st75256_panel_t × World :=
  match io, panel_dev_config, ret_panel with
  | some io, some cfg, true =>
    if cfg.bits_per_pixel ≠ 1 then (ESP_ERR_INVALID_ARG, none, w)
    else
      let swap_axes : Bool :=
        match cfg.vendor_config with
        | some c => decide (c.orientation ≠ 0)
        | none => false
      let width := uint8_t (if swap_axes then 128 else 256)
      let height := uint8_t (if swap_axes then 256 else 128)
      if !env.calloc_ok then (ESP_ERR_NO_MEM, none, w)
      else
        let st75256 : st75256_panel_t :=
          { io := io, bits_per_pixel := cfg.bits_per_pixel,
            reset_gpio_num := cfg.reset_gpio_num, reset_level := cfg.reset_active_high,
            width := width, height := height, swap_axes := swap_axes,
            x_gap := 0, y_gap := 0, y_mirror := false }
        if cfg.reset_gpio_num ≥ 0 then
          let w1 := { w with trace := w.trace ++
            [Event.gpio_config ((1 <<< cfg.reset_gpio_num.toNat) % 2 ^ 64)] }
          if env.gpio_config_rc ≠ ESP_OK then
            (env.gpio_config_rc, none,
              { w1 with trace := w1.trace ++ [Event.gpio_reset_pin cfg.reset_gpio_num] })
          else (ESP_OK, some st75256, w1)
        else (ESP_OK, some st75256, w)
  | _, _, _ => (ESP_ERR_INVALID_ARG, none, w)

/-- The transport-facing entries of the operation table that the constructor
installs in `base` (lines 149-157), with their arguments. -/
inductive PanelOp where
  | init
  | draw_bitmap (x_start y_start x_end y_end : Int) (color_data : List Nat)
  | invert_color (invert_color_data : Bool)
  | mirror (mirror_x mirror_y : Bool)
  | swap_xy (swap_axes : Bool)
  | disp_on_off (on_off : Bool)
  deriving DecidableEq, Repr

/-- Dispatch through the operation table: result, panel structure after the
call, world after the call. -/
def PanelOp.run (env : Env) (st75256 : st75256_panel_t) (w : World) :
    PanelOp → esp_err_t × st75256_panel_t × World
  | PanelOp.init =>
    let r := panel_st75256_init env st75256 w
    (r.1, st75256, r.2)
  | PanelOp.draw_bitmap x_start y_start x_end y_end color_data =>
    let r := panel_st75256_draw_bitmap env st75256 x_start y_start x_end y_end color_data w
    (r.1, st75256, r.2)
  | PanelOp.invert_color b =>
    let r := panel_st75256_invert_color env st75256 b w
    (r.1, st75256, r.2)
  | PanelOp.mirror mx my => panel_st75256_mirror env st75256 mx my w
  | PanelOp.swap_xy b => panel_st75256_swap_xy env st75256 b w
  | PanelOp.disp_on_off b =>
    let r := panel_st75256_disp_on_off env st75256 b w
    (r.1, st75256, r.2)

/-- Number of channel calls made by the operation when every call succeeds,
obtained by running it on the always-succeeding channel. -/
def PanelOp.okCalls (st75256 : st75256_panel_t) (op : PanelOp) : Nat :=
  (op.run okEnv st75256 World.fresh).2.2.calls

/-- Run a list of channel transactions in order, stopping at the first one
that fails, then go on with `rest`. -/
def runScript (env : Env) : List Event → (World → esp_err_t × World) → World → esp_err_t × World
  | [], rest => rest
  | ev :: evs, rest => ESP_RETURN_ON_ERROR (channel_call env ev) (runScript env evs rest)

/-- The panel structure that the constructor returns for the configuration of
main/i2c_st75256.c (orientation 0, one bit per pixel, no reset line), with
`io` handle 1.  The stored `width` is `(uint8_t)256`. -/
def landscape_panel : st75256_panel_t :=
  { io := 1, height := 128, width := 0, reset_gpio_num := -1, x_gap := 0, y_gap := 0,
    bits_per_pixel := 1, reset_level := false, swap_axes := false, y_mirror := false }

/-- The panel structure that the constructor returns for orientation 1. -/
def portrait_panel : st75256_panel_t :=
  { io := 1, height := 0, width := 128, reset_gpio_num := -1, x_gap := 0, y_gap := 0,
    bits_per_pixel := 1, reset_level := false, swap_axes := true, y_mirror := false }

/-- The transactions of `panel_st75256_init` before the clearing loop, in
program order (lines 203-270). -/
def initScript : List Event :=
  [cmd 0x30, cmd 0xAE, cmd 0x94, cmd 0x08, cmd 0x31,
   cmd 0xD7, data [0x9F],
   cmd 0x32, data [0x00, 0x01, 0x00],
   cmd 0x20, data grayscale_table,
   cmd 0x30,
   cmd 0x81, data [0x1E, 0x05],
   cmd 0x20, data [0x0B],
   cmd 0xCA, data [0x00, 0x7F, 0x20],
   cmd 0xF0, data [0x10],
   cmd 0xA6,
   cmd 0x30, cmd 0x15, data [0, 255], cmd 0x75, data [0, 40], cmd 0x5C]

/-- The transactions of `panel_st75256_draw_bitmap` in program order (lines
337-365), for the coordinate variables `r` reached at line 336 and the buffer
`color_data_local`. -/
def drawScript (r : Rect) (color_data_local : List Nat) : List Event :=
  let page_start := uint8_t (r.y_start.tdiv 8)
  let page_end := uint8_t ((r.y_end - 1).tdiv 8)
  let num_pages := uint8_t ((page_end : Int) - (page_start : Int) + 1)
  [cmd 0x30, cmd 0x15, data [uint8_t r.x_start, uint8_t (r.x_end - 1)],
   cmd 0x75, data [page_start, page_end], cmd 0x5C,
   Event.tx_color (-1) color_data_local (size_t ((num_pages : Int) * (r.x_end - r.x_start)))]

/-- The scan-direction code computed by `panel_st75256_mirror` (lines 383-396). -/
def mirror_dir (swap_axes mirror_x mirror_y : Bool) : Nat :=
  let dir : Nat := if swap_axes then 0x04 else 0x00
  let dir := if mirror_x then dir ||| 0x02 else dir
  if mirror_y then dir ||| 0x01 else dir

/-- The channel transactions of an operation in program order, for the panel
structure and world in which it is entered. -/
def PanelOp.script (p : st75256_panel_t) (w : World) : PanelOp → List Event
  | PanelOp.init => initScript ++ List.replicate 4096 (data [0x00])
  | PanelOp.draw_bitmap x_start y_start x_end y_end color_data =>
    drawScript (panel_st75256_draw_bitmap_rect p x_start y_start x_end y_end)
      (if p.swap_axes then (panel_st75256_draw_bitmap_scratch p color_data w).s_remap_buffer
       else color_data)
  | PanelOp.invert_color b => [cmd 0x30, cmd (if b then 0xA7 else 0xA6)]
  | PanelOp.mirror mx my =>
    [cmd (if my then 0x08 else 0x0C), cmd 0x30, cmd 0xBC, data [mirror_dir p.swap_axes mx my]]
  | PanelOp.swap_xy b => [cmd 0x30, cmd 0xBC, data [if b then 0x04 else 0x00]]
  | PanelOp.disp_on_off b => [cmd 0x30, cmd (if b then 0xAF else 0xAE)]

/-- What an operation does after its last channel transaction has succeeded. -/
def PanelOp.finish : PanelOp → World → esp_err_t × World
  | PanelOp.disp_on_off b => fun w => if b then (ESP_OK, vTaskDelay_ms 10 w) else (ESP_OK, w)
  | _ => return_ESP_OK

/-- The world in which the first channel transaction of an operation is issued. -/
def PanelOp.entry (p : st75256_panel_t) (w : World) : PanelOp → World
  | PanelOp.draw_bitmap _ _ _ _ color_data => panel_st75256_draw_bitmap_scratch p color_data w
  | _ => w

/-- The command bytes of a trace, in call order. -/
def cmdBytes : List Event → List Int
  | [] => []
  | Event.tx_param c _ _ :: t => c :: cmdBytes t
  | _ :: t => cmdBytes t

/-- A channel that answers `e` on call number `k` (counted from zero) and
`ESP_OK` on every other call. -/
def failAt (k : Nat) (e : esp_err_t) : Env :=
  { chan := fun n => if n = k then e else ESP_OK, calloc_ok := true, gpio_config_rc := ESP_OK }

/-- The device configuration of main/i2c_st75256.c, lines 85-94: orientation
0, one bit per pixel, no reset line. -/
def landscape_config : esp_lcd_panel_dev_config_t :=
  { reset_gpio_num := -1, bits_per_pixel := 1, reset_active_high := false,
    vendor_config := some { orientation := 0 } }

/-- The same configuration with orientation 1. -/
def portrait_config : esp_lcd_panel_dev_config_t :=
  { reset_gpio_num := -1, bits_per_pixel := 1, reset_active_high := false,
    vendor_config := some { orientation := 1 } }

/-- Number of set bits of a 4096-byte buffer: the number of positions (byte
index below 4096, bit index below 8) at which the bit is set. -/
def setBitCount (l : List Nat) : Nat :=
  ((Finset.range 4096 ×ˢ Finset.range 8).filter
    (fun bk => (l.getD bk.1 0).testBit bk.2 = true)).card

/-- The range of a C `int` on the 32-bit targets of the driver. -/
abbrev in_int_range (v : Int) : Prop := -2147483648 ≤ v ∧ v ≤ 2147483647

/-- The value an `int` result takes on the 32-bit targets when the exact
result leaves the range of `int`: reduction to two's complement. -/
def int32_t (v : Int) : Int := (v + 2147483648) % 4294967296 - 2147483648

/-- Lines 448-455 with the two subtractions as the 32-bit targets compute
them. -/
def st75256_apply_mirror_int32 (start stop : Int) : Int × Int :=
  let total_height : Int := (ST75256_TOTAL_PAGES + 1) * 8
  let tmp_start := int32_t (total_height - stop)
  let tmp_end := int32_t (total_height - start)
  (tmp_start, tmp_end)

/-- Lines 293-334 of `panel_st75256_draw_bitmap` with the four additions and
the mirror subtractions as the 32-bit targets compute them; it is
`panel_st75256_draw_bitmap_rect` wherever no result leaves the range of
`int`. -/
def panel_st75256_draw_bitmap_rect_int32 (st75256 : st75256_panel_t)
    (x_start y_start x_end y_end : Int) : Rect :=
  let x_start := int32_t (x_start + st75256.x_gap)
  let x_end := int32_t (x_end + st75256.x_gap)
  let y_start := int32_t (y_start + st75256.y_gap)
  let y_end := int32_t (y_end + st75256.y_gap)
  if st75256.swap_axes then
    let m := if st75256.y_mirror then st75256_apply_mirror_int32 x_start x_end
      else (x_start, x_end)
    { x_start := y_start, y_start := m.1, x_end := y_end, y_end := m.2 }
  else
    let m := if st75256.y_mirror then st75256_apply_mirror_int32 y_start y_end
      else (y_start, y_end)
    { x_start := x_start, y_start := m.1, x_end := x_end, y_end := m.2 }

/-! ## Lemmas on the channel and on error propagation -/

theorem txs_append (a b : List Event) : txs (a ++ b) = txs a ++ txs b := by
  simp [txs]

theorem calls_channel_call (env : Env) (ev : Event) (w : World) (h : ev.isTx = true) :
    (channel_call env ev w).2.calls = w.calls + 1 := by
  simp [channel_call, World.calls, txs, List.filter_cons, h]

theorem runScript_nil (env : Env) (rest : World → esp_err_t × World) :
    runScript env [] rest = rest := rfl

theorem runScript_cons (env : Env) (ev : Event) (evs : List Event)
    (rest : World → esp_err_t × World) :
    runScript env (ev :: evs) rest
      = ESP_RETURN_ON_ERROR (channel_call env ev) (runScript env evs rest) := rfl

theorem runScript_append (env : Env) (a b : List Event) (rest : World → esp_err_t × World) :
    runScript env (a ++ b) rest = runScript env a (runScript env b rest) := by
  induction a with
  | nil => rfl
  | cons ev evs ih => simp [runScript_cons, ih]

/-- On a channel whose next `script.length` answers are `ESP_OK`, the whole
script is issued and control reaches `rest`. -/
theorem runScript_ok (env : Env) (script : List Event) (rest : World → esp_err_t × World)
    (w : World) (htx : ∀ ev ∈ script, ev.isTx = true)
    (hok : ∀ i, i < script.length → env.chan (w.calls + i) = ESP_OK) :
    runScript env script rest w = rest { w with trace := w.trace ++ script } := by
  induction script generalizing w with
  | nil => simp [runScript_nil]
  | cons ev evs ih =>
    have h0 : env.chan w.calls = ESP_OK := by simpa using hok 0 (by simp)
    have hev : ev.isTx = true := htx ev (by simp)
    have hstep : ESP_RETURN_ON_ERROR (channel_call env ev) (runScript env evs rest) w
        = runScript env evs rest (channel_call env ev w).2 := by
      simp [ESP_RETURN_ON_ERROR, channel_call, h0]
    rw [runScript_cons, hstep, ih]
    · simp [channel_call]
    · intro e he
      exact htx e (by simp [he])
    · intro i hi
      rw [calls_channel_call env ev w hev]
      have := hok (i + 1) (by simpa using hi)
      rw [← this]
      congr 1
      omega

/-- Fail-fast: when the first `k` answers are `ESP_OK` and the next one is an
error, exactly `k + 1` transactions of the script are issued and the error is
returned. -/
theorem runScript_fail (env : Env) (script : List Event) (rest : World → esp_err_t × World)
    (w : World) (k : Nat) (e : esp_err_t) (htx : ∀ ev ∈ script, ev.isTx = true)
    (hk : k < script.length) (he : e ≠ ESP_OK)
    (hok : ∀ i, i < k → env.chan (w.calls + i) = ESP_OK)
    (hfail : env.chan (w.calls + k) = e) :
    runScript env script rest w = (e, { w with trace := w.trace ++ script.take (k + 1) }) := by
  induction script generalizing w k with
  | nil => simp at hk
  | cons ev evs ih =>
    have hev : ev.isTx = true := htx ev (by simp)
    cases k with
    | zero =>
      have h0 : env.chan w.calls = e := by simpa using hfail
      simp [runScript_cons, ESP_RETURN_ON_ERROR, channel_call, h0, he]
    | succ k =>
      have h0 : env.chan w.calls = ESP_OK := by simpa using hok 0 (by omega)
      have hstep : ESP_RETURN_ON_ERROR (channel_call env ev) (runScript env evs rest) w
          = runScript env evs rest (channel_call env ev w).2 := by
        simp [ESP_RETURN_ON_ERROR, channel_call, h0]
      rw [runScript_cons, hstep, ih (channel_call env ev w).2 k]
      · simp [channel_call]
      · intro e he
        exact htx e (by simp [he])
      · simpa using hk
      · intro i hi
        rw [calls_channel_call env ev w hev]
        have := hok (i + 1) (by omega)
        rw [← this]
        congr 1
        omega
      · rw [calls_channel_call env ev w hev, ← hfail]
        congr 1
        omega

/-- A trailing `return f();` is the same as checking `f()` and returning `ESP_OK`. -/
theorem return_call_eq (x : World → esp_err_t × World) :
    ESP_RETURN_ON_ERROR x return_ESP_OK = x := by
  funext w
  unfold ESP_RETURN_ON_ERROR return_ESP_OK
  by_cases h : (x w).1 = ESP_OK
  · simp only [h, ne_eq, not_true_eq_false, if_false]
    rw [← h]
  · simp [h]

theorem init_clear_eq_script (env : Env) (io n : Nat) (rest : World → esp_err_t × World) :
    panel_st75256_init_clear env io n rest = runScript env (List.replicate n (data [0])) rest := by
  induction n with
  | zero => rfl
  | succ n ih =>
    rw [panel_st75256_init_clear, ih, List.replicate_succ, runScript_cons]
    rfl

theorem init_eq_script (env : Env) (p : st75256_panel_t) :
    panel_st75256_init env p
      = runScript env (initScript ++ List.replicate 4096 (data [0])) return_ESP_OK := by
  rw [runScript_append, ← init_clear_eq_script env p.io]
  rfl

theorem draw_eq_script (env : Env) (p : st75256_panel_t) (x_start y_start x_end y_end : Int)
    (color_data : List Nat) (w : World) :
    panel_st75256_draw_bitmap env p x_start y_start x_end y_end color_data w
      = runScript env
          (drawScript (panel_st75256_draw_bitmap_rect p x_start y_start x_end y_end)
            (if p.swap_axes then
              (panel_st75256_draw_bitmap_scratch p color_data w).s_remap_buffer
             else color_data))
          return_ESP_OK (panel_st75256_draw_bitmap_scratch p color_data w) := rfl

/-! ## Lemmas on the integer conversions -/

theorem uint8_t_of_range (v : Int) (h0 : 0 ≤ v) (h1 : v < 256) : uint8_t v = v.toNat := by
  unfold uint8_t
  rw [Int.emod_eq_of_lt h0 h1]

theorem size_t_of_range (v : Int) (h0 : 0 ≤ v) (h1 : v < 4294967296) : size_t v = v.toNat := by
  unfold size_t
  rw [Int.emod_eq_of_lt h0 h1]

theorem tdiv_eight (v : Int) (h0 : 0 ≤ v) : v.tdiv 8 = v / 8 :=
  Int.tdiv_eq_ediv h0 (by decide)

/-- The transactions of a draw whose physical window lies in the addressable
range, with every 8-bit conversion resolved. -/
theorem drawScript_in_range (r : Rect) (buf : List Nat)
    (hx0 : 0 ≤ r.x_start) (hx1 : r.x_start < r.x_end) (hx2 : r.x_end ≤ 256)
    (hy0 : 0 ≤ r.y_start) (hy1 : r.y_start < r.y_end) (hy2 : r.y_end ≤ 168) :
    drawScript r buf =
      [cmd 0x30, cmd 0x15, data [r.x_start.toNat, (r.x_end - 1).toNat],
       cmd 0x75, data [(r.y_start / 8).toNat, ((r.y_end - 1) / 8).toNat], cmd 0x5C,
       Event.tx_color (-1) buf
         ((((r.y_end - 1) / 8 - r.y_start / 8 + 1) * (r.x_end - r.x_start)).toNat)] := by
  have hps : uint8_t (r.y_start.tdiv 8) = (r.y_start / 8).toNat := by
    rw [tdiv_eight _ hy0]
    exact uint8_t_of_range _ (by omega) (by omega)
  have hpe : uint8_t ((r.y_end - 1).tdiv 8) = ((r.y_end - 1) / 8).toNat := by
    rw [tdiv_eight _ (by omega)]
    exact uint8_t_of_range _ (by omega) (by omega)
  have hnp : uint8_t ((((r.y_end - 1) / 8).toNat : Int) - ((r.y_start / 8).toNat : Int) + 1)
      = ((r.y_end - 1) / 8 - r.y_start / 8 + 1).toNat := by
    rw [Int.toNat_of_nonneg (by omega), Int.toNat_of_nonneg (by omega)]
    exact uint8_t_of_range _ (by omega) (by omega)
  have hsz : size_t ((((r.y_end - 1) / 8 - r.y_start / 8 + 1).toNat : Int)
        * (r.x_end - r.x_start))
      = (((r.y_end - 1) / 8 - r.y_start / 8 + 1) * (r.x_end - r.x_start)).toNat := by
    rw [Int.toNat_of_nonneg (by omega)]
    have hA0 : 0 ≤ (r.y_end - 1) / 8 - r.y_start / 8 + 1 := by omega
    have hA1 : (r.y_end - 1) / 8 - r.y_start / 8 + 1 ≤ 21 := by omega
    have hB0 : 0 ≤ r.x_end - r.x_start := by omega
    have hB1 : r.x_end - r.x_start ≤ 256 := by omega
    apply size_t_of_range _ (mul_nonneg hA0 hB0)
    nlinarith
  unfold drawScript
  simp only [hps, hpe, hnp, hsz]
  rw [uint8_t_of_range _ hx0 (by omega), uint8_t_of_range _ (by omega) (by omega)]

theorem drawScript_isTx (r : Rect) (buf : List Nat) : ∀ ev ∈ drawScript r buf, ev.isTx = true := by
  intro ev hev
  simp [drawScript, cmd, data] at hev
  rcases hev with h | h | h | h | h | h | h <;> subst h <;> rfl

theorem scratch_trace (p : st75256_panel_t) (color_data : List Nat) (w : World) :
    (panel_st75256_draw_bitmap_scratch p color_data w).trace = w.trace := by
  unfold panel_st75256_draw_bitmap_scratch
  split <;> rfl

theorem scratch_calls (p : st75256_panel_t) (color_data : List Nat) (w : World) :
    (panel_st75256_draw_bitmap_scratch p color_data w).calls = w.calls := by
  simp [World.calls, scratch_trace]

/-- On a non-failing channel a draw succeeds and appends its seven
transactions to the trace. -/
theorem draw_ok (env : Env) (hok : ∀ n, env.chan n = ESP_OK) (p : st75256_panel_t)
    (x_start y_start x_end y_end : Int) (color_data : List Nat) (w : World) :
    panel_st75256_draw_bitmap env p x_start y_start x_end y_end color_data w
      = (ESP_OK,
         { trace := w.trace ++
             drawScript (panel_st75256_draw_bitmap_rect p x_start y_start x_end y_end)
               (if p.swap_axes then
                 st75256_remap_swapped_frame color_data (List.replicate (16 * 256) 0)
                else color_data),
           s_remap_buffer := (panel_st75256_draw_bitmap_scratch p color_data w).s_remap_buffer }) := by
  rw [draw_eq_script, runScript_ok env _ _ _ (drawScript_isTx _ _) (fun i _ => hok _)]
  unfold return_ESP_OK
  rw [scratch_trace]
  have hbuf : (if p.swap_axes then
        (panel_st75256_draw_bitmap_scratch p color_data w).s_remap_buffer else color_data)
      = (if p.swap_axes then
          st75256_remap_swapped_frame color_data (List.replicate (16 * 256) 0)
         else color_data) := by
    unfold panel_st75256_draw_bitmap_scratch
    cases p.swap_axes
    · rfl
    · rfl
  rw [hbuf]

theorem rect_identity (p : st75256_panel_t) (x_start y_start x_end y_end : Int)
    (hswap : p.swap_axes = false) (hmir : p.y_mirror = false)
    (hxg : p.x_gap = 0) (hyg : p.y_gap = 0) :
    panel_st75256_draw_bitmap_rect p x_start y_start x_end y_end
      = { x_start := x_start, y_start := y_start, x_end := x_end, y_end := y_end } := by
  simp [panel_st75256_draw_bitmap_rect, hswap, hmir, hxg, hyg]

/-! ## Coordinate transform and draw sequence -/

/-- C1: with swap_axes = false, y_mirror = false and zero gap, for every
rectangle with 0 <= x_start < x_end <= 256 and 0 <= y_start < y_end <= 128, a
draw on a non-failing channel succeeds and sends the column-range parameters
(x_start, x_end - 1) and the page-range parameters (y_start / 8, (y_end - 1) / 8):
the column window is the unchanged logical one. -/
theorem draw_bitmap_identity_window (env : Env) (p : st75256_panel_t)
    (x_start y_start x_end y_end : Int) (color_data : List Nat) (w : World)
    (hok : ∀ n, env.chan n = ESP_OK)
    (hswap : p.swap_axes = false) (hmir : p.y_mirror = false)
    (hxg : p.x_gap = 0) (hyg : p.y_gap = 0)
    (hx0 : 0 ≤ x_start) (hx1 : x_start < x_end) (hx2 : x_end ≤ 256)
    (hy0 : 0 ≤ y_start) (hy1 : y_start < y_end) (hy2 : y_end ≤ 128) :
    (panel_st75256_draw_bitmap env p x_start y_start x_end y_end color_data w).1 = ESP_OK ∧
    ∃ payload size,
      (panel_st75256_draw_bitmap env p x_start y_start x_end y_end color_data w).2.trace
        = w.trace ++
          [cmd 0x30,
           cmd 0x15, data [x_start.toNat, (x_end - 1).toNat],
           cmd 0x75, data [(y_start / 8).toNat, ((y_end - 1) / 8).toNat],
           cmd 0x5C, Event.tx_color (-1) payload size] := by
  rw [draw_ok env hok, rect_identity p _ _ _ _ hswap hmir hxg hyg,
    drawScript_in_range _ _ hx0 hx1 hx2 hy0 hy1 (by simpa using le_trans hy2 (by decide))]
  exact ⟨rfl, _, _, rfl⟩

/-- Witness for C1: the rectangle (16,8)-(200,24) on a landscape panel. -/
theorem draw_bitmap_identity_window_witness :
    (panel_st75256_draw_bitmap okEnv
        landscape_panel 16 8 200 24 [] World.fresh).1 = ESP_OK ∧
    ∃ payload size,
      (panel_st75256_draw_bitmap okEnv
        landscape_panel 16 8 200 24 [] World.fresh).2.trace
        = World.fresh.trace ++
          [cmd 0x30,
           cmd 0x15, data [(16 : Int).toNat, ((200 : Int) - 1).toNat],
           cmd 0x75, data [((8 : Int) / 8).toNat, (((24 : Int) - 1) / 8).toNat],
           cmd 0x5C, Event.tx_color (-1) payload size] :=
  draw_bitmap_identity_window okEnv _ 16 8 200 24 [] World.fresh (fun _ => rfl) rfl rfl rfl rfl
    (by decide) (by decide) (by decide) (by decide) (by decide) (by decide)

/-- C2: for every panel state and every rectangle whose derived physical
window `r` satisfies 0 <= r.x_start < r.x_end <= 256 and
0 <= r.y_start < r.y_end <= 168, a draw on a non-failing channel succeeds and
issues exactly: command 0x30, command 0x15, data [column_start, column_end],
command 0x75, data [page_start, page_end], command 0x5C, and one data
transaction of length (page_end - page_start + 1) * (r.x_end - r.x_start),
whose buffer is the caller's when swap_axes is false (and the remapped scratch
buffer otherwise).  The scenario of the claim is the witness below. -/
theorem draw_bitmap_transaction_sequence (env : Env) (p : st75256_panel_t)
    (x_start y_start x_end y_end : Int) (color_data : List Nat) (w : World) (r : Rect)
    (hok : ∀ n, env.chan n = ESP_OK)
    (hr : r = panel_st75256_draw_bitmap_rect p x_start y_start x_end y_end)
    (hx0 : 0 ≤ r.x_start) (hx1 : r.x_start < r.x_end) (hx2 : r.x_end ≤ 256)
    (hy0 : 0 ≤ r.y_start) (hy1 : r.y_start < r.y_end) (hy2 : r.y_end ≤ 168) :
    (panel_st75256_draw_bitmap env p x_start y_start x_end y_end color_data w).1 = ESP_OK ∧
    (panel_st75256_draw_bitmap env p x_start y_start x_end y_end color_data w).2.trace
      = w.trace ++
        [cmd 0x30,
         cmd 0x15, data [r.x_start.toNat, (r.x_end - 1).toNat],
         cmd 0x75, data [(r.y_start / 8).toNat, ((r.y_end - 1) / 8).toNat],
         cmd 0x5C,
         Event.tx_color (-1)
           (if p.swap_axes then
             st75256_remap_swapped_frame color_data (List.replicate (16 * 256) 0)
            else color_data)
           ((((r.y_end - 1) / 8 - r.y_start / 8 + 1) * (r.x_end - r.x_start)).toNat)] := by
  subst hr
  rw [draw_ok env hok, drawScript_in_range _ _ hx0 hx1 hx2 hy0 hy1 hy2]
  exact ⟨rfl, rfl⟩

/-- Witness for C2, the scenario of the claim: orientation 0, no swap, no
mirror, zero gap, rectangle (0,0)-(256,8) gives column window [0,255], page
window [0,0] and 256 bytes taken from the caller's buffer. -/
theorem draw_bitmap_transaction_sequence_witness :
    (panel_st75256_draw_bitmap okEnv landscape_panel 0 0 256 8 (List.replicate 256 0xFF)
        World.fresh).1 = ESP_OK ∧
    (panel_st75256_draw_bitmap okEnv landscape_panel 0 0 256 8 (List.replicate 256 0xFF)
        World.fresh).2.trace
      = [cmd 0x30, cmd 0x15, data [0, 255], cmd 0x75, data [0, 0], cmd 0x5C,
         Event.tx_color (-1) (List.replicate 256 0xFF) 256] :=
  draw_bitmap_transaction_sequence okEnv landscape_panel 0 0 256 8 (List.replicate 256 0xFF)
    World.fresh { x_start := 0, y_start := 0, x_end := 256, y_end := 8 }
    (fun _ => rfl) rfl (by decide) (by decide) (by decide) (by decide) (by decide) (by decide)

theorem rect_swapped (p : st75256_panel_t) (x_start y_start x_end y_end : Int)
    (hswap : p.swap_axes = true) (hmir : p.y_mirror = false)
    (hxg : p.x_gap = 0) (hyg : p.y_gap = 0) :
    panel_st75256_draw_bitmap_rect p x_start y_start x_end y_end
      = { x_start := y_start, y_start := x_start, x_end := y_end, y_end := x_end } := by
  simp [panel_st75256_draw_bitmap_rect, hswap, hmir, hxg, hyg]

/-- C3: with swap_axes = true, y_mirror = false and zero gap, for every logical
rectangle with 0 <= x_start < x_end <= 128 and 0 <= y_start < y_end <= 256 the
axes are exchanged before addressing: the column window sent is
[y_start, y_end - 1], the page window sent is [x_start / 8, (x_end - 1) / 8],
and the payload length is (number of pages) * (y_end - y_start), read from the
remapped scratch buffer. -/
theorem draw_bitmap_swapped_window (env : Env) (p : st75256_panel_t)
    (x_start y_start x_end y_end : Int) (color_data : List Nat) (w : World)
    (hok : ∀ n, env.chan n = ESP_OK)
    (hswap : p.swap_axes = true) (hmir : p.y_mirror = false)
    (hxg : p.x_gap = 0) (hyg : p.y_gap = 0)
    (hx0 : 0 ≤ x_start) (hx1 : x_start < x_end) (hx2 : x_end ≤ 128)
    (hy0 : 0 ≤ y_start) (hy1 : y_start < y_end) (hy2 : y_end ≤ 256) :
    (panel_st75256_draw_bitmap env p x_start y_start x_end y_end color_data w).1 = ESP_OK ∧
    (panel_st75256_draw_bitmap env p x_start y_start x_end y_end color_data w).2.trace
      = w.trace ++
        [cmd 0x30,
         cmd 0x15, data [y_start.toNat, (y_end - 1).toNat],
         cmd 0x75, data [(x_start / 8).toNat, ((x_end - 1) / 8).toNat],
         cmd 0x5C,
         Event.tx_color (-1)
           (st75256_remap_swapped_frame color_data (List.replicate (16 * 256) 0))
           ((((x_end - 1) / 8 - x_start / 8 + 1) * (y_end - y_start)).toNat)] := by
  rw [draw_ok env hok, rect_swapped p _ _ _ _ hswap hmir hxg hyg,
    drawScript_in_range _ _ hy0 hy1 hy2 hx0 hx1 (by simpa using le_trans hx2 (by decide))]
  refine ⟨rfl, ?_⟩
  rw [hswap]
  rfl

/-- Witness for C3, the scenario of the claim: rectangle (0,0)-(128,8) on the
portrait panel gives column window [0,7], page window [0,15] and 128 bytes. -/
theorem draw_bitmap_swapped_window_witness :
    (panel_st75256_draw_bitmap okEnv portrait_panel 0 0 128 8 (List.replicate 4096 0)
        World.fresh).1 = ESP_OK ∧
    (panel_st75256_draw_bitmap okEnv portrait_panel 0 0 128 8 (List.replicate 4096 0)
        World.fresh).2.trace
      = World.fresh.trace ++
        [cmd 0x30,
         cmd 0x15, data [0, 7],
         cmd 0x75, data [0, 15],
         cmd 0x5C,
         Event.tx_color (-1)
           (st75256_remap_swapped_frame (List.replicate 4096 0) (List.replicate (16 * 256) 0))
           128] :=
  draw_bitmap_swapped_window okEnv portrait_panel 0 0 128 8 (List.replicate 4096 0)
    World.fresh (fun _ => rfl)
    rfl rfl rfl rfl (by decide) (by decide) (by decide) (by decide) (by decide) (by decide)

theorem rect_mirror_swap (p : st75256_panel_t) (x_start y_start x_end y_end : Int)
    (hswap : p.swap_axes = true) (hmir : p.y_mirror = true) :
    panel_st75256_draw_bitmap_rect p x_start y_start x_end y_end
      = { x_start := y_start + p.y_gap,
          y_start := (ST75256_TOTAL_PAGES + 1) * 8 - (x_end + p.x_gap),
          x_end := y_end + p.y_gap,
          y_end := (ST75256_TOTAL_PAGES + 1) * 8 - (x_start + p.x_gap) } := by
  simp [panel_st75256_draw_bitmap_rect, st75256_apply_mirror, hswap, hmir]

theorem rect_mirror_noswap (p : st75256_panel_t) (x_start y_start x_end y_end : Int)
    (hswap : p.swap_axes = false) (hmir : p.y_mirror = true) :
    panel_st75256_draw_bitmap_rect p x_start y_start x_end y_end
      = { x_start := x_start + p.x_gap,
          y_start := (ST75256_TOTAL_PAGES + 1) * 8 - (y_end + p.y_gap),
          x_end := x_end + p.x_gap,
          y_end := (ST75256_TOTAL_PAGES + 1) * 8 - (y_start + p.y_gap) } := by
  simp [panel_st75256_draw_bitmap_rect, st75256_apply_mirror, hswap, hmir]

theorem int32_t_of_range (v : Int) (h : in_int_range v) : int32_t v = v := by
  unfold int32_t
  obtain ⟨h0, h1⟩ := h
  omega

/-- C4 (as stated, refuted): the claim is for every gap, but the sums and
the mirror difference are `int` computations.  With swap_axes = false,
y_mirror = true, y_gap = -2147483647 and rectangle (0,2)-(8,10), every input
is an `int`, yet H - (y_end + y_gap) = 2147483805 is above the largest `int`:
the 32-bit computation gives the Y pair (-2147483491, -2147483483), not
(H - (y_end + y_gap), H - (y_start + y_gap)), and the page parameters are
[20, 21], not the [19, 20] of the claimed pair. -/
theorem gap_mirror_order_fails_on_overflow :
    in_int_range (-2147483647) ∧
    (168 : Int) - (10 + (-2147483647)) = 2147483805 ∧ ¬ in_int_range 2147483805 ∧
    panel_st75256_draw_bitmap_rect_int32
        { landscape_panel with y_mirror := true, y_gap := -2147483647 } 0 2 8 10
      = { x_start := 0, y_start := -2147483491, x_end := 8, y_end := -2147483483 } ∧
    ¬ ((panel_st75256_draw_bitmap_rect_int32
          { landscape_panel with y_mirror := true, y_gap := -2147483647 } 0 2 8 10).y_start
          = (ST75256_TOTAL_PAGES + 1) * 8 - (10 + (-2147483647)) ∧
       (panel_st75256_draw_bitmap_rect_int32
          { landscape_panel with y_mirror := true, y_gap := -2147483647 } 0 2 8 10).y_end
          = (ST75256_TOTAL_PAGES + 1) * 8 - (2 + (-2147483647))) ∧
    [uint8_t ((-2147483491 : Int).tdiv 8), uint8_t ((int32_t (-2147483483 - 1)).tdiv 8)]
      = [20, 21] ∧
    [uint8_t (((168 : Int) - (10 + (-2147483647))).tdiv 8),
     uint8_t (((168 : Int) - (2 + (-2147483647)) - 1).tdiv 8)] = [19, 20] := by
  refine ⟨by decide, by decide, by decide, by decide, by decide, by decide, by decide⟩

/-- C4 (amended): for every rectangle and every gap for which the four sums
coordinate + gap, the two mirror differences and the row `y_end - 1` of line
338 stay within the range of `int`, with y_mirror = true the steps are applied
in the order gap, mirror, axis swap.  With H the span of the mirror formula
(`st75256_apply_mirror a b = (H - b, H - a)`): when swap_axes = true the
physical X pair (column window) is (y_start + y_gap, y_end + y_gap) and the
physical Y pair (page window) is
(H - (x_end + x_gap), H - (x_start + x_gap)); when swap_axes = false the X
pair is (x_start + x_gap, x_end + x_gap) and the Y pair is
(H - (y_end + y_gap), H - (y_start + y_gap)).  These pairs `r` are what the
32-bit computation gives as well, and the column and page parameters sent on
a non-failing channel are computed from them. -/
theorem draw_bitmap_gap_mirror_swap_order (env : Env) (p : st75256_panel_t)
    (x_start y_start x_end y_end : Int) (color_data : List Nat) (w : World) (H a b : Int)
    (r : Rect)
    (hH : H = (ST75256_TOTAL_PAGES + 1) * 8)
    (hok : ∀ n, env.chan n = ESP_OK) (hmir : p.y_mirror = true)
    (hr : r = if p.swap_axes then
                { x_start := y_start + p.y_gap, x_end := y_end + p.y_gap,
                  y_start := H - (x_end + p.x_gap), y_end := H - (x_start + p.x_gap) }
              else
                { x_start := x_start + p.x_gap, x_end := x_end + p.x_gap,
                  y_start := H - (y_end + p.y_gap), y_end := H - (y_start + p.y_gap) })
    (hx0 : in_int_range (x_start + p.x_gap)) (hx1 : in_int_range (x_end + p.x_gap))
    (hy0 : in_int_range (y_start + p.y_gap)) (hy1 : in_int_range (y_end + p.y_gap))
    (hm0 : in_int_range r.y_start) (hm1 : in_int_range r.y_end)
    (hm2 : in_int_range (r.y_end - 1)) :
    st75256_apply_mirror a b = (H - b, H - a) ∧
    panel_st75256_draw_bitmap_rect p x_start y_start x_end y_end = r ∧
    panel_st75256_draw_bitmap_rect_int32 p x_start y_start x_end y_end = r ∧
    int32_t (r.y_end - 1) = r.y_end - 1 ∧
    ∃ payload size,
      (panel_st75256_draw_bitmap env p x_start y_start x_end y_end color_data w).2.trace
        = w.trace ++
          [cmd 0x30,
           cmd 0x15, data [uint8_t r.x_start, uint8_t (r.x_end - 1)],
           cmd 0x75, data [uint8_t (r.y_start.tdiv 8), uint8_t ((r.y_end - 1).tdiv 8)],
           cmd 0x5C, Event.tx_color (-1) payload size] := by
  subst hH
  have hrect : panel_st75256_draw_bitmap_rect p x_start y_start x_end y_end = r := by
    subst hr
    cases hswap : p.swap_axes
    · rw [rect_mirror_noswap p _ _ _ _ hswap hmir]
      rfl
    · rw [rect_mirror_swap p _ _ _ _ hswap hmir]
      rfl
  have hrect32 : panel_st75256_draw_bitmap_rect_int32 p x_start y_start x_end y_end = r := by
    unfold panel_st75256_draw_bitmap_rect_int32 st75256_apply_mirror_int32
    simp only [int32_t_of_range _ hx0, int32_t_of_range _ hx1, int32_t_of_range _ hy0,
      int32_t_of_range _ hy1, hmir, if_true]
    cases hswap : p.swap_axes
    · rw [hswap] at hr
      simp only [Bool.false_eq_true, if_false] at hr ⊢
      rw [hr] at hm0 hm1
      simp only at hm0 hm1
      rw [int32_t_of_range _ hm0, int32_t_of_range _ hm1, hr]
    · rw [hswap] at hr
      simp only [if_true] at hr ⊢
      rw [hr] at hm0 hm1
      simp only at hm0 hm1
      rw [int32_t_of_range _ hm0, int32_t_of_range _ hm1, hr]
  refine ⟨rfl, hrect, hrect32, int32_t_of_range _ hm2, ?_⟩
  rw [draw_ok env hok, hrect]
  exact ⟨_, _, rfl⟩

/-- Witness for C4 (amended): swap_axes = true, y_mirror = true, gap (2, 3),
rectangle (8,16)-(24,48): column window [19, 50], rows 168 - 26 = 142 to
168 - 10 = 158, pages [17, 19]. -/
theorem draw_bitmap_gap_mirror_swap_order_witness :
    st75256_apply_mirror 10 26 = (168 - 26, 168 - 10) ∧
    panel_st75256_draw_bitmap_rect
        { portrait_panel with y_mirror := true, x_gap := 2, y_gap := 3 } 8 16 24 48
      = { x_start := 19, x_end := 51, y_start := 142, y_end := 158 } ∧
    panel_st75256_draw_bitmap_rect_int32
        { portrait_panel with y_mirror := true, x_gap := 2, y_gap := 3 } 8 16 24 48
      = { x_start := 19, x_end := 51, y_start := 142, y_end := 158 } ∧
    int32_t (158 - 1) = 158 - 1 ∧
    ∃ payload size,
      (panel_st75256_draw_bitmap okEnv
          { portrait_panel with y_mirror := true, x_gap := 2, y_gap := 3 } 8 16 24 48
          (List.replicate 4096 0) World.fresh).2.trace
        = World.fresh.trace ++
          [cmd 0x30,
           cmd 0x15, data [19, 50],
           cmd 0x75, data [17, 19],
           cmd 0x5C, Event.tx_color (-1) payload size] :=
  draw_bitmap_gap_mirror_swap_order okEnv
    { portrait_panel with y_mirror := true, x_gap := 2, y_gap := 3 } 8 16 24 48
    (List.replicate 4096 0) World.fresh 168 10 26
    { x_start := 19, x_end := 51, y_start := 142, y_end := 158 }
    (by decide) (fun _ => rfl) rfl (by decide)
    (by decide) (by decide) (by decide) (by decide) (by decide) (by decide) (by decide)

theorem and_shift_ne_zero (sb bit : Nat) : sb &&& (1 <<< bit) ≠ 0 ↔ sb.testBit bit = true := by
  rw [Nat.one_shiftLeft, Nat.and_two_pow]
  cases sb.testBit bit <;> simp

theorem remap_bit_length (sb page x : Nat) (dst : List Nat) (bit : Nat) :
    (remap_bit sb page x dst bit).length = dst.length := by
  unfold remap_bit
  dsimp only
  split
  · split
    · rfl
    · simp
  · rfl

/-- Effect of one pass of the innermost loop body on bit `k` of byte `b`. -/
theorem remap_bit_testBit (sb page x bit : Nat) (dst : List Nat) (b k : Nat) (hk : k < 8)
    (hlen : dst.length = 4096) :
    ((remap_bit sb page x dst bit).getD b 0).testBit k
      = ((dst.getD b 0).testBit k ||
          (sb.testBit bit &&
            decide (b = (page * 8 + bit) * 16 + x / 8 ∧ k = x % 8 ∧ b < 4096))) := by
  unfold remap_bit
  by_cases hs : sb.testBit bit = true
  · rw [if_pos ((and_shift_ne_zero sb bit).2 hs)]
    simp only [hs, Bool.true_and]
    by_cases hb : (((page * 8 + bit) * 16 + x / 8 : Nat) : Int) < 0 ∨
        (page * 8 + bit) * 16 + x / 8 ≥ 16 * 256
    · rw [if_pos hb]
      have hge : (page * 8 + bit) * 16 + x / 8 ≥ 4096 := by omega
      have : decide (b = (page * 8 + bit) * 16 + x / 8 ∧ k = x % 8 ∧ b < 4096) = false := by
        simp only [decide_eq_false_iff_not]
        omega
      rw [this, Bool.or_false]
    · rw [if_neg hb]
      have hlt : (page * 8 + bit) * 16 + x / 8 < 4096 := by omega
      simp only [List.getD_eq_getElem?_getD, List.getElem?_set, hlen, hlt, if_true]
      by_cases hbe : (page * 8 + bit) * 16 + x / 8 = b
      · subst hbe
        simp only [if_true, Option.getD_some]
        rw [show (256 : Nat) = 2 ^ 8 from rfl, Nat.testBit_mod_two_pow, Nat.testBit_or,
          Nat.one_shiftLeft, Nat.testBit_two_pow]
        simp only [hk, decide_True, Bool.true_and, hlt, and_true, true_and]
        congr 1
        simp only [eq_comm]
      · rw [if_neg hbe]
        have : decide (b = (page * 8 + bit) * 16 + x / 8 ∧ k = x % 8 ∧ b < 4096) = false := by
          simp only [decide_eq_false_iff_not]
          omega
        rw [this, Bool.or_false]
  · have hs2 : ¬ (sb &&& (1 <<< bit) ≠ 0) := fun h => hs ((and_shift_ne_zero sb bit).1 h)
    rw [if_neg hs2]
    simp [hs]

/-- A fold whose step ORs in, for element `a`, the bit `P a`, ORs in `l.any P`. -/
theorem foldl_testBit {α : Type} (f : List Nat → α → List Nat) (P : α → Bool) (b k : Nat)
    (hlen : ∀ d a, (f d a).length = d.length)
    (hstep : ∀ d a, d.length = 4096 →
      ((f d a).getD b 0).testBit k = ((d.getD b 0).testBit k || P a))
    (l : List α) (d : List Nat) (hd : d.length = 4096) :
    ((l.foldl f d).getD b 0).testBit k = ((d.getD b 0).testBit k || l.any P) := by
  induction l generalizing d with
  | nil => simp
  | cons a l ih =>
    rw [List.foldl_cons, ih (f d a) (by rw [hlen, hd]), hstep d a hd, List.any_cons,
      Bool.or_assoc]

theorem foldl_length {α : Type} (f : List Nat → α → List Nat)
    (hlen : ∀ d a, (f d a).length = d.length) (l : List α) (d : List Nat) :
    (l.foldl f d).length = d.length := by
  induction l generalizing d with
  | nil => rfl
  | cons a l ih => rw [List.foldl_cons, ih, hlen]

theorem remap_column_length (src : List Nat) (page : Nat) (dst : List Nat) (x : Nat) :
    (remap_column src page dst x).length = dst.length := by
  unfold remap_column
  dsimp only
  split
  · rfl
  · exact foldl_length _ (fun d a => remap_bit_length _ _ _ d a) _ _

theorem remap_page_length (src dst : List Nat) (page : Nat) :
    (remap_page src dst page).length = dst.length :=
  foldl_length _ (fun d a => remap_column_length src page d a) _ _

theorem remap_length (src dst : List Nat) :
    (st75256_remap_swapped_frame src dst).length = dst.length :=
  foldl_length _ (fun d a => remap_page_length src d a) _ _

/-- The bit contributed to destination position `(b, k)` by source position
`(page, x, bit)`. -/
theorem remap_column_testBit (src : List Nat) (page : Nat) (dst : List Nat) (x b k : Nat)
    (hk : k < 8) (hlen : dst.length = 4096) :
    ((remap_column src page dst x).getD b 0).testBit k
      = ((dst.getD b 0).testBit k ||
          (List.range 8).any (fun bit =>
            (src.getD (x + page * 128) 0).testBit bit &&
              decide (b = (page * 8 + bit) * 16 + x / 8 ∧ k = x % 8 ∧ b < 4096))) := by
  unfold remap_column
  by_cases h0 : src.getD (x + page * 128) 0 = 0
  · simp only [h0, if_true]
    simp
  · simp only [h0, if_false]
    exact foldl_testBit _ _ b k (fun d a => remap_bit_length _ _ _ d a)
      (fun d a hd => remap_bit_testBit _ page x a d b k hk hd) _ dst hlen

theorem remap_page_testBit (src dst : List Nat) (page b k : Nat)
    (hk : k < 8) (hlen : dst.length = 4096) :
    ((remap_page src dst page).getD b 0).testBit k
      = ((dst.getD b 0).testBit k ||
          (List.range 128).any (fun x => (List.range 8).any (fun bit =>
            (src.getD (x + page * 128) 0).testBit bit &&
              decide (b = (page * 8 + bit) * 16 + x / 8 ∧ k = x % 8 ∧ b < 4096)))) :=
  foldl_testBit _ _ b k (fun d a => remap_column_length src page d a)
    (fun d a hd => remap_column_testBit src page d a b k hk hd) _ dst hlen

theorem remap_testBit (src dst : List Nat) (b k : Nat) (hk : k < 8) (hlen : dst.length = 4096) :
    ((st75256_remap_swapped_frame src dst).getD b 0).testBit k
      = ((dst.getD b 0).testBit k ||
          (List.range 32).any (fun page => (List.range 128).any (fun x =>
            (List.range 8).any (fun bit =>
              (src.getD (x + page * 128) 0).testBit bit &&
                decide (b = (page * 8 + bit) * 16 + x / 8 ∧ k = x % 8 ∧ b < 4096))))) :=
  foldl_testBit _ _ b k (fun d a => remap_page_length src d a)
    (fun d a hd => remap_page_testBit src d a b k hk hd) _ dst hlen

theorem replicate_zero_getD (n i : Nat) : (List.replicate n 0).getD i 0 = 0 := by
  rw [List.getD_eq_getElem?_getD, List.getElem?_replicate]
  split <;> rfl

theorem foldl_invariant {α : Type} (f : List Nat → α → List Nat) (P : List Nat → Prop)
    (hstep : ∀ d a, P d → P (f d a)) (l : List α) (d : List Nat) (hd : P d) :
    P (l.foldl f d) := by
  induction l generalizing d with
  | nil => exact hd
  | cons a l ih => exact ih (f d a) (hstep d a hd)

theorem remap_bit_bytes (sb page x : Nat) (dst : List Nat) (bit : Nat)
    (h : ∀ v ∈ dst, v < 256) : ∀ v ∈ remap_bit sb page x dst bit, v < 256 := by
  unfold remap_bit
  dsimp only
  split
  · split
    · exact h
    · intro v hv
      rcases List.mem_or_eq_of_mem_set hv with hv | hv
      · exact h v hv
      · subst hv
        exact Nat.mod_lt _ (by decide)
  · exact h

theorem remap_column_bytes (src : List Nat) (page : Nat) (dst : List Nat) (x : Nat)
    (h : ∀ v ∈ dst, v < 256) : ∀ v ∈ remap_column src page dst x, v < 256 := by
  unfold remap_column
  dsimp only
  split
  · exact h
  · exact foldl_invariant _ (fun d => ∀ v ∈ d, v < 256)
      (fun d a hd => remap_bit_bytes _ page x d a hd) _ dst h

theorem remap_bytes (src dst : List Nat) (h : ∀ v ∈ dst, v < 256) :
    ∀ v ∈ st75256_remap_swapped_frame src dst, v < 256 :=
  foldl_invariant _ (fun d => ∀ v ∈ d, v < 256)
    (fun d page hd => foldl_invariant _ (fun d => ∀ v ∈ d, v < 256)
      (fun d x hd => remap_column_bytes src page d x hd) _ d hd) _ dst h

theorem getD_lt_256 (l : List Nat) (h : ∀ v ∈ l, v < 256) (i : Nat) : l.getD i 0 < 256 := by
  rw [List.getD_eq_getElem?_getD]
  cases hi : l[i]? with
  | none => simp
  | some v =>
    simp only [Option.getD_some]
    exact h v (List.getElem?_mem hi)

/-- Every bit of the remapped frame, for a zeroed destination: bit `k` of byte
`b` is set exactly when `b < 4096`, `k < 8` and the source bit of the logical
pixel `x = (b % 16) * 8 + k`, `y = b / 16` is set. -/
theorem remap_zero_testBit (src : List Nat) (b k : Nat) :
    ((st75256_remap_swapped_frame src (List.replicate (16 * 256) 0)).getD b 0).testBit k
      = (decide (b < 4096 ∧ k < 8) &&
          (src.getD ((b % 16) * 8 + k + (b / 16 / 8) * 128) 0).testBit (b / 16 % 8)) := by
  by_cases hk : k < 8
  · rw [remap_testBit src _ b k hk (List.length_replicate _ _), replicate_zero_getD,
      Nat.zero_testBit, Bool.false_or, Bool.eq_iff_iff]
    simp only [List.any_eq_true, List.mem_range, Bool.and_eq_true, decide_eq_true_eq]
    constructor
    · rintro ⟨page, hpage, x, hx, bit, hbit, hsrc, hb, hkx, hb4⟩
      have hidx : (b % 16) * 8 + k + (b / 16 / 8) * 128 = x + page * 128 := by omega
      have hbt : b / 16 % 8 = bit := by omega
      rw [hidx, hbt]
      exact ⟨⟨hb4, hk⟩, hsrc⟩
    · rintro ⟨⟨hb4, _⟩, hsrc⟩
      refine ⟨b / 16 / 8, by omega, (b % 16) * 8 + k, by omega, b / 16 % 8, by omega, ?_,
        by omega, by omega, hb4⟩
      rw [Nat.add_comm] at hsrc
      rw [Nat.add_comm]
      exact hsrc
  · have hlt : (st75256_remap_swapped_frame src (List.replicate (16 * 256) 0)).getD b 0 < 2 ^ k :=
      lt_of_lt_of_le
        (getD_lt_256 _ (remap_bytes src _ (fun v hv => by
          rw [List.eq_of_mem_replicate hv]
          decide)) b)
        (by
          rw [show (256 : Nat) = 2 ^ 8 from rfl]
          exact Nat.pow_le_pow_right (by decide) (by omega))
    rw [Nat.testBit_lt_two_pow hlt]
    have : decide (b < 4096 ∧ k < 8) = false := by
      simp only [decide_eq_false_iff_not]
      omega
    rw [this, Bool.false_and]

theorem foldl_fixed {α : Type} (f : List Nat → α → List Nat) (hf : ∀ d a, f d a = d)
    (l : List α) (d : List Nat) : l.foldl f d = d := by
  induction l generalizing d with
  | nil => rfl
  | cons a l ih => rw [List.foldl_cons, hf, ih]

theorem remap_zero_source (n : Nat) (dst : List Nat) :
    st75256_remap_swapped_frame (List.replicate n 0) dst = dst := by
  unfold st75256_remap_swapped_frame
  apply foldl_fixed
  intro d page
  unfold remap_page
  apply foldl_fixed
  intro d x
  unfold remap_column
  dsimp only
  rw [if_pos (replicate_zero_getD n _)]

/-- C6: for every source buffer of 32 pages x 128 columns and a zeroed
4096-byte destination, after `st75256_remap_swapped_frame`, for all
0 <= X < 128 and 0 <= Y < 256, bit (X % 8) of destination byte (Y*16 + X/8)
is set if and only if bit (Y % 8) of source byte (X + (Y/8)*128) is set and
Y*16 + X/8 lies in [0, 4096); any set destination bit (b, k) is one of these
positions; and an all-zero source leaves the destination all zero. -/
theorem remap_swapped_frame_bits (src : List Nat) (X Y b k : Nat)
    (_hlen : src.length = 32 * 128) (hX : X < 128) (_hY : Y < 256) :
    (st75256_remap_swapped_frame src (List.replicate (16 * 256) 0)).length = 4096 ∧
    (((st75256_remap_swapped_frame src (List.replicate (16 * 256) 0)).getD
        (Y * 16 + X / 8) 0).testBit (X % 8) = true
      ↔ ((src.getD (X + (Y / 8) * 128) 0).testBit (Y % 8) = true ∧ Y * 16 + X / 8 < 4096)) ∧
    (((st75256_remap_swapped_frame src (List.replicate (16 * 256) 0)).getD b 0).testBit k = true
      → ∃ X1 Y1, X1 < 128 ∧ Y1 < 256 ∧ b = Y1 * 16 + X1 / 8 ∧ k = X1 % 8 ∧
          (src.getD (X1 + (Y1 / 8) * 128) 0).testBit (Y1 % 8) = true) ∧
    st75256_remap_swapped_frame (List.replicate src.length 0) (List.replicate (16 * 256) 0)
      = List.replicate (16 * 256) 0 := by
  refine ⟨?_, ?_, ?_, remap_zero_source _ _⟩
  · rw [remap_length, List.length_replicate]
  · rw [remap_zero_testBit]
    have hidx : ((Y * 16 + X / 8) % 16) * 8 + X % 8 + ((Y * 16 + X / 8) / 16 / 8) * 128
        = X + (Y / 8) * 128 := by omega
    have hbt : (Y * 16 + X / 8) / 16 % 8 = Y % 8 := by omega
    rw [hidx, hbt]
    simp only [Bool.and_eq_true, decide_eq_true_eq]
    constructor
    · rintro ⟨⟨h1, _⟩, h2⟩
      exact ⟨h2, h1⟩
    · rintro ⟨h2, h1⟩
      exact ⟨⟨h1, by omega⟩, h2⟩
  · rw [remap_zero_testBit]
    simp only [Bool.and_eq_true, decide_eq_true_eq]
    rintro ⟨⟨hb, hk⟩, hsrc⟩
    exact ⟨(b % 16) * 8 + k, b / 16, by omega, by omega, by omega, by omega, hsrc⟩

/-! ## Fail-fast error propagation -/

theorem run_eq_script (env : Env) (p : st75256_panel_t) (w : World) (op : PanelOp) :
    ((op.run env p w).1, (op.run env p w).2.2)
      = runScript env (op.script p w) op.finish (op.entry p w) := by
  cases op with
  | init =>
    show panel_st75256_init env p w = _
    rw [init_eq_script]
    rfl
  | draw_bitmap x_start y_start x_end y_end color_data => rfl
  | invert_color b =>
    show panel_st75256_invert_color env p b w = _
    unfold panel_st75256_invert_color
    rw [← return_call_eq (esp_lcd_panel_io_tx_param env p.io _ [] 0)]
    cases b <;> rfl
  | mirror mx my =>
    cases my
    · show (ESP_RETURN_ON_ERROR _ (st75256_set_scan_direction env _ _)) w = _
      unfold st75256_set_scan_direction
      rw [← return_call_eq (esp_lcd_panel_io_tx_color env _ (-1) _ 1)]
      cases mx <;> rfl
    · show (ESP_RETURN_ON_ERROR _ (st75256_set_scan_direction env _ _)) w = _
      unfold st75256_set_scan_direction
      rw [← return_call_eq (esp_lcd_panel_io_tx_color env _ (-1) _ 1)]
      cases mx <;> rfl
  | swap_xy b =>
    show st75256_set_scan_direction env _ _ w = _
    unfold st75256_set_scan_direction
    rw [← return_call_eq (esp_lcd_panel_io_tx_color env _ (-1) _ 1)]
    cases b <;> rfl
  | disp_on_off b => cases b <;> rfl

theorem script_isTx (p : st75256_panel_t) (w : World) (op : PanelOp) :
    ∀ ev ∈ op.script p w, ev.isTx = true := by
  intro ev hev
  cases op with
  | init =>
    rcases List.mem_append.1 hev with h | h
    · simp [initScript, cmd, data] at h
      rcases h with h | h | h | h | h | h | h | h | h | h | h | h | h | h | h | h | h | h | h |
        h | h | h | h | h | h | h | h <;> subst h <;> rfl
    · rw [List.eq_of_mem_replicate h]
      rfl
  | draw_bitmap x_start y_start x_end y_end color_data => exact drawScript_isTx _ _ ev hev
  | invert_color b =>
    simp [PanelOp.script, cmd] at hev
    rcases hev with h | h <;> subst h <;> rfl
  | mirror mx my =>
    simp [PanelOp.script, cmd, data] at hev
    rcases hev with h | h | h | h <;> subst h <;> rfl
  | swap_xy b =>
    simp [PanelOp.script, cmd, data] at hev
    rcases hev with h | h | h <;> subst h <;> rfl
  | disp_on_off b =>
    simp [PanelOp.script, cmd] at hev
    rcases hev with h | h <;> subst h <;> rfl

/-- Number of channel calls of each operation when none fails. -/
theorem script_length (p : st75256_panel_t) (w : World) (op : PanelOp) :
    (op.script p w).length =
      match op with
      | PanelOp.init => 4123
      | PanelOp.draw_bitmap _ _ _ _ _ => 7
      | PanelOp.invert_color _ => 2
      | PanelOp.mirror _ _ => 4
      | PanelOp.swap_xy _ => 3
      | PanelOp.disp_on_off _ => 2 := by
  cases op with
  | init =>
    show (initScript ++ List.replicate 4096 (data [0x00])).length = 4123
    rw [List.length_append, List.length_replicate]
    rfl
  | draw_bitmap x_start y_start x_end y_end color_data => rfl
  | invert_color b => rfl
  | mirror mx my => rfl
  | swap_xy b => rfl
  | disp_on_off b => rfl

theorem entry_trace (p : st75256_panel_t) (w : World) (op : PanelOp) :
    (op.entry p w).trace = w.trace := by
  cases op with
  | draw_bitmap x_start y_start x_end y_end color_data => exact scratch_trace p color_data w
  | init => rfl
  | invert_color b => rfl
  | mirror mx my => rfl
  | swap_xy b => rfl
  | disp_on_off b => rfl

theorem entry_calls (p : st75256_panel_t) (w : World) (op : PanelOp) :
    (op.entry p w).calls = w.calls := by
  simp [World.calls, entry_trace]

theorem txs_of_isTx (l : List Event) (h : ∀ ev ∈ l, ev.isTx = true) : txs l = l := by
  unfold txs
  exact List.filter_eq_self.2 h

theorem finish_ok (op : PanelOp) (w : World) :
    (op.finish w).1 = ESP_OK ∧ (op.finish w).2.calls = w.calls := by
  cases op with
  | disp_on_off b =>
    cases b
    · exact ⟨rfl, rfl⟩
    · refine ⟨rfl, ?_⟩
      show (txs (w.trace ++ [Event.vTaskDelay_ms 10])).length = (txs w.trace).length
      rw [txs_append]
      simp [txs, Event.isTx]
  | init => exact ⟨rfl, rfl⟩
  | draw_bitmap x_start y_start x_end y_end color_data => exact ⟨rfl, rfl⟩
  | invert_color b => exact ⟨rfl, rfl⟩
  | mirror mx my => exact ⟨rfl, rfl⟩
  | swap_xy b => exact ⟨rfl, rfl⟩

/-- The number of channel calls of a run on the always-succeeding channel is
the length of the operation's script. -/
theorem okCalls_eq (p : st75256_panel_t) (op : PanelOp) :
    op.okCalls p = (op.script p World.fresh).length := by
  unfold PanelOp.okCalls
  have h := run_eq_script okEnv p World.fresh op
  rw [runScript_ok okEnv _ _ _ (script_isTx p _ op) (fun _ _ => rfl)] at h
  have h2 : (op.run okEnv p World.fresh).2.2
      = (op.finish { op.entry p World.fresh with
          trace := (op.entry p World.fresh).trace ++ op.script p World.fresh }).2 :=
    congrArg Prod.snd h
  rw [h2, (finish_ok op _).2]
  show (txs ((op.entry p World.fresh).trace ++ op.script p World.fresh)).length = _
  rw [entry_trace, txs_append, txs_of_isTx _ (script_isTx p _ op)]
  rfl

/-- C7: fail-fast propagation.  For every transport-facing operation (init,
draw, invert, mirror, swap_xy, power), every panel state and world, and every
k with 1 <= k <= (number of channel calls of a successful run): if the
channel answers ESP_OK on the operation's first k - 1 calls and the error e
on its k-th call, the operation returns exactly e and has issued exactly k
channel calls. -/
theorem transport_fail_fast (env : Env) (p : st75256_panel_t) (w : World) (op : PanelOp)
    (k : Nat) (e : esp_err_t) (hk1 : 1 ≤ k) (hk2 : k ≤ op.okCalls p) (he : e ≠ ESP_OK)
    (hok : ∀ i, i < k - 1 → env.chan (w.calls + i) = ESP_OK)
    (hfail : env.chan (w.calls + (k - 1)) = e) :
    (op.run env p w).1 = e ∧ (op.run env p w).2.2.calls = w.calls + k := by
  have hlen : k - 1 < (op.script p w).length := by
    have h1 := okCalls_eq p op
    have h2 := script_length p w op
    have h3 := script_length p World.fresh op
    cases op <;> simp only at h2 h3 <;> omega
  have h := run_eq_script env p w op
  rw [runScript_fail env _ _ _ (k - 1) e (script_isTx p w op) hlen he
    (by rw [entry_calls]; exact hok) (by rw [entry_calls]; exact hfail)] at h
  have h1 : (op.run env p w).1 = e := congrArg Prod.fst h
  have h2 := congrArg Prod.snd h
  simp only at h2
  refine ⟨h1, ?_⟩
  rw [h2]
  show (txs ((op.entry p w).trace ++ (op.script p w).take (k - 1 + 1))).length = _
  rw [entry_trace, txs_append, txs_of_isTx ((op.script p w).take (k - 1 + 1))
    (fun ev hev => script_isTx p w op ev (List.mem_of_mem_take hev)), List.length_append,
    List.length_take]
  show (txs w.trace).length + _ = (txs w.trace).length + k
  omega

/-- Witness for C7, the scenario of the claim: init on a channel that fails
with ESP_FAIL (-1) on its 6th call returns -1 after exactly 6 calls. -/
theorem transport_fail_fast_witness :
    (PanelOp.init.run (failAt 5 (-1)) landscape_panel World.fresh).1 = -1 ∧
    (PanelOp.init.run (failAt 5 (-1)) landscape_panel World.fresh).2.2.calls
      = World.fresh.calls + 6 :=
  transport_fail_fast (failAt 5 (-1)) landscape_panel World.fresh PanelOp.init 6 (-1)
    (by decide) (by rw [okCalls_eq, script_length]; decide) (by decide)
    (fun i hi => by
      have h5 : World.fresh.calls + i ≠ 5 := by
        show 0 + i ≠ 5
        omega
      show (if World.fresh.calls + i = 5 then (-1 : Int) else ESP_OK) = ESP_OK
      rw [if_neg h5])
    rfl

/-- Witness for C6: a source whose bytes are all 0x01 (every eighth row lit),
at pixel X = 5, Y = 16 and destination position b = 256, k = 5. -/
theorem remap_swapped_frame_bits_witness :
    (st75256_remap_swapped_frame (List.replicate (32 * 128) 1)
        (List.replicate (16 * 256) 0)).length = 4096 ∧
    (((st75256_remap_swapped_frame (List.replicate (32 * 128) 1)
        (List.replicate (16 * 256) 0)).getD (16 * 16 + 5 / 8) 0).testBit (5 % 8) = true
      ↔ (((List.replicate (32 * 128) 1).getD (5 + (16 / 8) * 128) 0).testBit (16 % 8) = true ∧
          16 * 16 + 5 / 8 < 4096)) ∧
    (((st75256_remap_swapped_frame (List.replicate (32 * 128) 1)
        (List.replicate (16 * 256) 0)).getD 256 0).testBit 5 = true
      → ∃ X1 Y1, X1 < 128 ∧ Y1 < 256 ∧ 256 = Y1 * 16 + X1 / 8 ∧ 5 = X1 % 8 ∧
          ((List.replicate (32 * 128) 1).getD (X1 + (Y1 / 8) * 128) 0).testBit (Y1 % 8) = true) ∧
    st75256_remap_swapped_frame (List.replicate (List.replicate (32 * 128) 1).length 0)
        (List.replicate (16 * 256) 0)
      = List.replicate (16 * 256) 0 :=
  remap_swapped_frame_bits (List.replicate (32 * 128) 1) 5 16 256 5
    (List.length_replicate _ _) (by decide) (by decide)

/-! ## Initialisation sequence -/

theorem init_ok (env : Env) (hok : ∀ n, env.chan n = ESP_OK) (p : st75256_panel_t) (w : World) :
    panel_st75256_init env p w
      = (ESP_OK, { w with trace := w.trace ++ (initScript ++ List.replicate 4096 (data [0x00])) })
    := by
  have htx : ∀ ev ∈ initScript ++ List.replicate 4096 (data [0x00]), ev.isTx = true :=
    script_isTx p w PanelOp.init
  rw [init_eq_script, runScript_ok env _ _ _ htx (fun i _ => hok _)]
  rfl

theorem cmdBytes_append (a b : List Event) : cmdBytes (a ++ b) = cmdBytes a ++ cmdBytes b := by
  induction a with
  | nil => rfl
  | cons ev t ih =>
    cases ev <;> simp [cmdBytes, ih]

theorem cmdBytes_replicate_data (n : Nat) (bs : List Nat) :
    cmdBytes (List.replicate n (data bs)) = [] := by
  induction n with
  | zero => rfl
  | succ n ih =>
    rw [List.replicate_succ]
    exact ih

/-- C8: on a non-failing channel `panel_st75256_init` succeeds and issues
exactly the transactions below, so that its command bytes are, in order,
0x30, 0xAE, 0x94, 0x08, 0x31, 0xD7, 0x32 (3 parameter bytes), 0x20 (the 16
bytes of the grayscale table), 0x30, 0x81 (2 bytes), 0x20 (1 byte), 0xCA
(3 bytes), 0xF0 (1 byte, 0x10), 0xA6, and then the RAM clear 0x30, 0x15, 0x75,
0x5C followed by zero data bytes; the command byte 0xAF is never issued.
(0xD7 is followed by one parameter byte, 0x9F.) -/
theorem init_command_sequence (env : Env) (p : st75256_panel_t) (w : World)
    (hok : ∀ n, env.chan n = ESP_OK) :
    (panel_st75256_init env p w).1 = ESP_OK ∧
    (panel_st75256_init env p w).2.trace
      = w.trace ++
        ([cmd 0x30, cmd 0xAE, cmd 0x94, cmd 0x08, cmd 0x31,
          cmd 0xD7, data [0x9F],
          cmd 0x32, data [0x00, 0x01, 0x00],
          cmd 0x20, data [0x01, 0x03, 0x05, 0x07, 0x09, 0x0B, 0x0D, 0x10,
                          0x11, 0x13, 0x15, 0x17, 0x19, 0x1B, 0x1D, 0x1F],
          cmd 0x30,
          cmd 0x81, data [0x1E, 0x05],
          cmd 0x20, data [0x0B],
          cmd 0xCA, data [0x00, 0x7F, 0x20],
          cmd 0xF0, data [0x10],
          cmd 0xA6,
          cmd 0x30, cmd 0x15, data [0, 255], cmd 0x75, data [0, 40], cmd 0x5C]
          ++ List.replicate 4096 (data [0x00])) ∧
    cmdBytes ((panel_st75256_init env p w).2.trace.drop w.trace.length)
      = [0x30, 0xAE, 0x94, 0x08, 0x31, 0xD7, 0x32, 0x20, 0x30, 0x81, 0x20, 0xCA, 0xF0, 0xA6,
         0x30, 0x15, 0x75, 0x5C] ∧
    (0xAF : Int) ∉ cmdBytes ((panel_st75256_init env p w).2.trace.drop w.trace.length) := by
  have hcmd : cmdBytes (initScript ++ List.replicate 4096 (data [0x00]))
      = [0x30, 0xAE, 0x94, 0x08, 0x31, 0xD7, 0x32, 0x20, 0x30, 0x81, 0x20, 0xCA, 0xF0, 0xA6,
         0x30, 0x15, 0x75, 0x5C] := by
    rw [cmdBytes_append, cmdBytes_replicate_data]
    rfl
  rw [init_ok env hok]
  refine ⟨rfl, rfl, ?_, ?_⟩
  · show cmdBytes (List.drop w.trace.length
      (w.trace ++ (initScript ++ List.replicate 4096 (data [0x00])))) = _
    rw [List.drop_left, hcmd]
  · show (0xAF : Int) ∉ cmdBytes (List.drop w.trace.length
      (w.trace ++ (initScript ++ List.replicate 4096 (data [0x00]))))
    rw [List.drop_left, hcmd]
    decide

/-- Witness for C8: the landscape panel in a fresh world. -/
theorem init_command_sequence_witness :
    (panel_st75256_init okEnv landscape_panel World.fresh).1 = ESP_OK ∧
    (panel_st75256_init okEnv landscape_panel World.fresh).2.trace
      = World.fresh.trace ++
        ([cmd 0x30, cmd 0xAE, cmd 0x94, cmd 0x08, cmd 0x31,
          cmd 0xD7, data [0x9F],
          cmd 0x32, data [0x00, 0x01, 0x00],
          cmd 0x20, data [0x01, 0x03, 0x05, 0x07, 0x09, 0x0B, 0x0D, 0x10,
                          0x11, 0x13, 0x15, 0x17, 0x19, 0x1B, 0x1D, 0x1F],
          cmd 0x30,
          cmd 0x81, data [0x1E, 0x05],
          cmd 0x20, data [0x0B],
          cmd 0xCA, data [0x00, 0x7F, 0x20],
          cmd 0xF0, data [0x10],
          cmd 0xA6,
          cmd 0x30, cmd 0x15, data [0, 255], cmd 0x75, data [0, 40], cmd 0x5C]
          ++ List.replicate 4096 (data [0x00])) ∧
    cmdBytes ((panel_st75256_init okEnv landscape_panel World.fresh).2.trace.drop
        World.fresh.trace.length)
      = [0x30, 0xAE, 0x94, 0x08, 0x31, 0xD7, 0x32, 0x20, 0x30, 0x81, 0x20, 0xCA, 0xF0, 0xA6,
         0x30, 0x15, 0x75, 0x5C] ∧
    (0xAF : Int) ∉ cmdBytes ((panel_st75256_init okEnv landscape_panel World.fresh).2.trace.drop
        World.fresh.trace.length) :=
  init_command_sequence okEnv landscape_panel World.fresh (fun _ => rfl)

/-- C9 (code evaluated at the failing input): on the always-succeeding channel
the last step of init programs the column window [0, 255] and the page window
[0, 40], which has (255 - 0 + 1) * (40 - 0 + 1) = 10496 byte cells, and then
writes 4096 zero bytes after 0x5C: fewer than the window holds. -/
theorem init_clear_shorter_than_window :
    (panel_st75256_init okEnv landscape_panel World.fresh).1 = ESP_OK ∧
    (panel_st75256_init okEnv landscape_panel World.fresh).2.trace.drop 21
      = [cmd 0x30, cmd 0x15, data [0, 255], cmd 0x75, data [0, 40], cmd 0x5C]
        ++ List.replicate 4096 (data [0x00]) ∧
    (List.replicate 4096 (data [0x00])).length = 4096 ∧
    (255 - 0 + 1) * (40 - 0 + 1) = 10496 ∧
    (List.replicate 4096 (data [0x00])).length ≠ (255 - 0 + 1) * (40 - 0 + 1) := by
  rw [init_ok okEnv (fun _ => rfl)]
  refine ⟨rfl, rfl, List.length_replicate _ _, rfl, ?_⟩
  rw [List.length_replicate]
  decide

/-! ## Construction -/

/-- C10: `esp_lcd_new_panel_st75256` called with a configuration whose
bits_per_pixel is not 1 returns ESP_ERR_INVALID_ARG, stores nothing in
`*ret_panel`, and leaves the trace unchanged: no channel transaction and no
GPIO call is made, whatever the other arguments and the environment. -/
theorem new_panel_rejects_bits_per_pixel (env : Env) (io : Option Nat)
    (cfg : esp_lcd_panel_dev_config_t) (ret_panel : Bool) (w : World)
    (hbpp : cfg.bits_per_pixel ≠ 1) :
    (esp_lcd_new_panel_st75256 env io (some cfg) ret_panel w).1 = ESP_ERR_INVALID_ARG ∧
    (esp_lcd_new_panel_st75256 env io (some cfg) ret_panel w).2.1 = none ∧
    (esp_lcd_new_panel_st75256 env io (some cfg) ret_panel w).2.2 = w ∧
    txs (esp_lcd_new_panel_st75256 env io (some cfg) ret_panel w).2.2.trace = txs w.trace ∧
    (esp_lcd_new_panel_st75256 env io (some cfg) ret_panel w).2.2.trace.filter Event.isGpio
      = w.trace.filter Event.isGpio := by
  have h : esp_lcd_new_panel_st75256 env io (some cfg) ret_panel w
      = (ESP_ERR_INVALID_ARG, none, w) := by
    unfold esp_lcd_new_panel_st75256
    cases io with
    | none => rfl
    | some i =>
      cases ret_panel with
      | false => rfl
      | true =>
        dsimp only
        rw [if_pos hbpp]
  rw [h]
  exact ⟨rfl, rfl, rfl, rfl, rfl⟩

/-- Witness for C10, the scenario of the claim: bits_per_pixel = 2, with a
reset line configured on GPIO 18. -/
theorem new_panel_rejects_bits_per_pixel_witness :
    (esp_lcd_new_panel_st75256 okEnv (some 1)
        (some { reset_gpio_num := 18, bits_per_pixel := 2, reset_active_high := false,
                vendor_config := some { orientation := 0 } })
        true World.fresh).1 = ESP_ERR_INVALID_ARG ∧
    (esp_lcd_new_panel_st75256 okEnv (some 1)
        (some { reset_gpio_num := 18, bits_per_pixel := 2, reset_active_high := false,
                vendor_config := some { orientation := 0 } })
        true World.fresh).2.1 = none ∧
    (esp_lcd_new_panel_st75256 okEnv (some 1)
        (some { reset_gpio_num := 18, bits_per_pixel := 2, reset_active_high := false,
                vendor_config := some { orientation := 0 } })
        true World.fresh).2.2 = World.fresh ∧
    txs (esp_lcd_new_panel_st75256 okEnv (some 1)
        (some { reset_gpio_num := 18, bits_per_pixel := 2, reset_active_high := false,
                vendor_config := some { orientation := 0 } })
        true World.fresh).2.2.trace = txs World.fresh.trace ∧
    (esp_lcd_new_panel_st75256 okEnv (some 1)
        (some { reset_gpio_num := 18, bits_per_pixel := 2, reset_active_high := false,
                vendor_config := some { orientation := 0 } })
        true World.fresh).2.2.trace.filter Event.isGpio
      = World.fresh.trace.filter Event.isGpio :=
  new_panel_rejects_bits_per_pixel okEnv (some 1)
    { reset_gpio_num := 18, bits_per_pixel := 2, reset_active_high := false,
      vendor_config := some { orientation := 0 } }
    true World.fresh (by decide)

/-! ## Stored geometry -/

/-- C11 (code evaluated at the failing input): a successful construction with
orientation 0, or with no vendor configuration, stores (width, height) =
(0, 128), and with orientation 1 stores (128, 0): the value 256 does not fit
the 8-bit fields and is stored as 0, so the stored pair is neither (256, 128)
nor (128, 256). -/
theorem new_panel_stored_geometry_truncated :
    esp_lcd_new_panel_st75256 okEnv (some 1) (some landscape_config) true World.fresh
      = (ESP_OK, some landscape_panel, World.fresh) ∧
    (landscape_panel.width, landscape_panel.height) = (0, 128) ∧
    (landscape_panel.width, landscape_panel.height) ≠ (256, 128) ∧
    esp_lcd_new_panel_st75256 okEnv (some 1)
        (some { landscape_config with vendor_config := none }) true World.fresh
      = (ESP_OK, some landscape_panel, World.fresh) ∧
    esp_lcd_new_panel_st75256 okEnv (some 1) (some portrait_config) true World.fresh
      = (ESP_OK, some portrait_panel, World.fresh) ∧
    (portrait_panel.width, portrait_panel.height) = (128, 0) ∧
    (portrait_panel.width, portrait_panel.height) ≠ (128, 256) ∧
    uint8_t 256 = 0 := by
  refine ⟨rfl, rfl, by decide, rfl, rfl, rfl, by decide, rfl⟩

/-! ## Orientation operations -/

/-- On a non-failing channel an operation issues its whole script and then
finishes. -/
theorem run_ok (env : Env) (hok : ∀ n, env.chan n = ESP_OK) (p : st75256_panel_t) (w : World)
    (op : PanelOp) :
    ((op.run env p w).1, (op.run env p w).2.2)
      = op.finish { op.entry p w with trace := w.trace ++ op.script p w } := by
  rw [run_eq_script, runScript_ok env _ _ _ (script_isTx p w op) (fun i _ => hok _),
    entry_trace]

theorem mirror_dir_eq (s mx my : Bool) :
    mirror_dir s mx my
      = (if s then 0x04 else 0x00) ||| (if mx then 0x02 else 0x00) |||
          (if my then 0x01 else 0x00) := by
  cases s <;> cases mx <;> cases my <;> rfl

theorem mirror_panel (env : Env) (p : st75256_panel_t) (mx my : Bool) (w : World) :
    (panel_st75256_mirror env p mx my w).2.1 = { p with y_mirror := my } := by
  cases my <;> rfl

theorem swap_xy_panel (env : Env) (p : st75256_panel_t) (v : Bool) (w : World) :
    (panel_st75256_swap_xy env p v w).2.1 = { p with swap_axes := v } := rfl

/-- Result and world of a mirror call on a non-failing channel. -/
theorem mirror_ok (env : Env) (hok : ∀ n, env.chan n = ESP_OK) (p : st75256_panel_t)
    (mx my : Bool) (w : World) :
    (panel_st75256_mirror env p mx my w).1 = ESP_OK ∧
    (panel_st75256_mirror env p mx my w).2.2
      = { w with trace := w.trace ++
            [cmd (if my then 0x08 else 0x0C), cmd 0x30, cmd 0xBC,
             data [mirror_dir p.swap_axes mx my]] } := by
  have h := run_ok env hok p w (PanelOp.mirror mx my)
  exact ⟨congrArg Prod.fst h, congrArg Prod.snd h⟩

/-- Result and world of a swap_xy call on a non-failing channel. -/
theorem swap_xy_ok (env : Env) (hok : ∀ n, env.chan n = ESP_OK) (p : st75256_panel_t)
    (v : Bool) (w : World) :
    (panel_st75256_swap_xy env p v w).1 = ESP_OK ∧
    (panel_st75256_swap_xy env p v w).2.2
      = { w with trace := w.trace ++ [cmd 0x30, cmd 0xBC, data [if v then 0x04 else 0x00]] } := by
  have h := run_ok env hok p w (PanelOp.swap_xy v)
  exact ⟨congrArg Prod.fst h, congrArg Prod.snd h⟩

/-- C12: for every panel state (swap_axes = s) and all booleans mx, my,
`panel_st75256_mirror(mx, my)` on a non-failing channel succeeds, sets
y_mirror to my and leaves every other field (and the scratch buffer)
unchanged, and issues exactly: the bit-order command 0x08 when my is true and
0x0C otherwise, the command-set-1 selector 0x30, command 0xBC, and the single
parameter byte (s ? 0x04 : 0x00) | (mx ? 0x02 : 0) | (my ? 0x01 : 0). -/
theorem mirror_effect (env : Env) (p : st75256_panel_t) (mx my : Bool) (w : World)
    (hok : ∀ n, env.chan n = ESP_OK) :
    (panel_st75256_mirror env p mx my w).1 = ESP_OK ∧
    (panel_st75256_mirror env p mx my w).2.1 = { p with y_mirror := my } ∧
    (panel_st75256_mirror env p mx my w).2.2.trace
      = w.trace ++
        [cmd (if my then 0x08 else 0x0C), cmd 0x30, cmd 0xBC,
         data [(if p.swap_axes then 0x04 else 0x00) ||| (if mx then 0x02 else 0x00) |||
               (if my then 0x01 else 0x00)]] ∧
    (panel_st75256_mirror env p mx my w).2.2.s_remap_buffer = w.s_remap_buffer := by
  refine ⟨(mirror_ok env hok p mx my w).1, mirror_panel env p mx my w, ?_, ?_⟩
  · rw [(mirror_ok env hok p mx my w).2, mirror_dir_eq]
  · rw [(mirror_ok env hok p mx my w).2]

/-- Witness for C12: mirror(true, true) on the portrait panel sends 0x08,
0x30, 0xBC and the code 0x07. -/
theorem mirror_effect_witness :
    (panel_st75256_mirror okEnv portrait_panel true true World.fresh).1 = ESP_OK ∧
    (panel_st75256_mirror okEnv portrait_panel true true World.fresh).2.1
      = { portrait_panel with y_mirror := true } ∧
    (panel_st75256_mirror okEnv portrait_panel true true World.fresh).2.2.trace
      = World.fresh.trace ++ [cmd 0x08, cmd 0x30, cmd 0xBC, data [0x07]] ∧
    (panel_st75256_mirror okEnv portrait_panel true true World.fresh).2.2.s_remap_buffer
      = World.fresh.s_remap_buffer :=
  mirror_effect okEnv portrait_panel true true World.fresh (fun _ => rfl)

/-- C13: for every panel state and boolean v, `panel_st75256_swap_xy(v)` on a
non-failing channel succeeds, sets swap_axes to v, leaves y_mirror and every
other field (and the scratch buffer) unchanged, and issues exactly 0x30, 0xBC,
data [v ? 0x04 : 0x00]: the code carries only the swap base bit, whatever
y_mirror holds from an earlier mirror call. -/
theorem swap_xy_effect (env : Env) (p : st75256_panel_t) (v : Bool) (w : World)
    (hok : ∀ n, env.chan n = ESP_OK) :
    (panel_st75256_swap_xy env p v w).1 = ESP_OK ∧
    (panel_st75256_swap_xy env p v w).2.1 = { p with swap_axes := v } ∧
    (panel_st75256_swap_xy env p v w).2.1.y_mirror = p.y_mirror ∧
    (panel_st75256_swap_xy env p v w).2.2.trace
      = w.trace ++ [cmd 0x30, cmd 0xBC, data [if v then 0x04 else 0x00]] ∧
    (panel_st75256_swap_xy env p v w).2.2.s_remap_buffer = w.s_remap_buffer := by
  refine ⟨(swap_xy_ok env hok p v w).1, rfl, rfl, ?_, ?_⟩
  · rw [(swap_xy_ok env hok p v w).2]
  · rw [(swap_xy_ok env hok p v w).2]

/-- Witness for C13: swap_xy(true) on the landscape panel after a Y mirror
still sends the code 0x04. -/
theorem swap_xy_effect_witness :
    (panel_st75256_swap_xy okEnv { landscape_panel with y_mirror := true } true
        World.fresh).1 = ESP_OK ∧
    (panel_st75256_swap_xy okEnv { landscape_panel with y_mirror := true } true
        World.fresh).2.1
      = { landscape_panel with y_mirror := true, swap_axes := true } ∧
    (panel_st75256_swap_xy okEnv { landscape_panel with y_mirror := true } true
        World.fresh).2.1.y_mirror = true ∧
    (panel_st75256_swap_xy okEnv { landscape_panel with y_mirror := true } true
        World.fresh).2.2.trace
      = World.fresh.trace ++ [cmd 0x30, cmd 0xBC, data [0x04]] ∧
    (panel_st75256_swap_xy okEnv { landscape_panel with y_mirror := true } true
        World.fresh).2.2.s_remap_buffer = World.fresh.s_remap_buffer :=
  swap_xy_effect okEnv { landscape_panel with y_mirror := true } true World.fresh
    (fun _ => rfl)

/-- C14: for either value s of swap_axes, start from the state `r1` reached by
swap_xy(s) on a non-failing channel from a state with y_mirror = false (code
s ? 0x04 : 0x00 sent last).  Calling mirror(false, true) and then
mirror(false, false) succeeds, the last scan-direction code sent is again
s ? 0x04 : 0x00, y_mirror is false again and the whole panel state is the one
before the two mirror calls. -/
theorem mirror_round_trip (env : Env) (p0 : st75256_panel_t) (w0 : World) (s : Bool)
    (r1 r2 r3 : esp_err_t × st75256_panel_t × World)
    (hok : ∀ n, env.chan n = ESP_OK) (hm : p0.y_mirror = false)
    (h1 : r1 = panel_st75256_swap_xy env p0 s w0)
    (h2 : r2 = panel_st75256_mirror env r1.2.1 false true r1.2.2)
    (h3 : r3 = panel_st75256_mirror env r2.2.1 false false r2.2.2) :
    r1.1 = ESP_OK ∧ r2.1 = ESP_OK ∧ r3.1 = ESP_OK ∧
    r1.2.1.y_mirror = false ∧ r2.2.1.y_mirror = true ∧ r3.2.1.y_mirror = false ∧
    r3.2.1 = r1.2.1 ∧
    r1.2.2.trace = w0.trace ++ [cmd 0x30, cmd 0xBC, data [if s then 0x04 else 0x00]] ∧
    r3.2.2.trace
      = r1.2.2.trace ++
        [cmd 0x08, cmd 0x30, cmd 0xBC, data [(if s then 0x04 else 0x00) ||| 0x01],
         cmd 0x0C, cmd 0x30, cmd 0xBC, data [if s then 0x04 else 0x00]] := by
  have hp1 : r1.2.1 = { p0 with swap_axes := s } := by rw [h1]; rfl
  have hp2 : r2.2.1 = { r1.2.1 with y_mirror := true } := by rw [h2, mirror_panel]
  have hp3 : r3.2.1 = { r2.2.1 with y_mirror := false } := by rw [h3, mirror_panel]
  have hw1 := (swap_xy_ok env hok p0 s w0).2
  have hw2 := (mirror_ok env hok r1.2.1 false true r1.2.2).2
  have hw3 := (mirror_ok env hok r2.2.1 false false r2.2.2).2
  rw [← h1] at hw1
  rw [← h2] at hw2
  rw [← h3] at hw3
  refine ⟨?_, ?_, ?_, ?_, ?_, ?_, ?_, ?_, ?_⟩
  · rw [h1]
    exact (swap_xy_ok env hok p0 s w0).1
  · rw [h2]
    exact (mirror_ok env hok _ false true _).1
  · rw [h3]
    exact (mirror_ok env hok _ false false _).1
  · rw [hp1]
    exact hm
  · rw [hp2]
  · rw [hp3]
  · rw [hp3, hp2, hp1]
    cases p0
    simp only at hm
    subst hm
    rfl
  · rw [hw1]
  · rw [hw3, hw2, hp2, hp1]
    cases s <;> simp [mirror_dir]

/-- Witness for C14: the landscape panel, s = true. -/
theorem mirror_round_trip_witness :
    (panel_st75256_mirror okEnv
        (panel_st75256_mirror okEnv
          (panel_st75256_swap_xy okEnv landscape_panel true World.fresh).2.1 false true
          (panel_st75256_swap_xy okEnv landscape_panel true World.fresh).2.2).2.1
        false false
        (panel_st75256_mirror okEnv
          (panel_st75256_swap_xy okEnv landscape_panel true World.fresh).2.1 false true
          (panel_st75256_swap_xy okEnv landscape_panel true World.fresh).2.2).2.2).2.1.y_mirror
      = false ∧
    (panel_st75256_mirror okEnv
        (panel_st75256_mirror okEnv
          (panel_st75256_swap_xy okEnv landscape_panel true World.fresh).2.1 false true
          (panel_st75256_swap_xy okEnv landscape_panel true World.fresh).2.2).2.1
        false false
        (panel_st75256_mirror okEnv
          (panel_st75256_swap_xy okEnv landscape_panel true World.fresh).2.1 false true
          (panel_st75256_swap_xy okEnv landscape_panel true World.fresh).2.2).2.2).2.2.trace
      = (panel_st75256_swap_xy okEnv landscape_panel true World.fresh).2.2.trace ++
        [cmd 0x08, cmd 0x30, cmd 0xBC, data [0x04 ||| 0x01],
         cmd 0x0C, cmd 0x30, cmd 0xBC, data [0x04]] :=
  have h := mirror_round_trip okEnv landscape_panel World.fresh true _ _ _ (fun _ => rfl) rfl
    rfl rfl rfl
  ⟨h.2.2.2.2.2.1, h.2.2.2.2.2.2.2.2⟩

/-- C15 (code evaluated at the failing input): the first channel transaction
of `panel_st75256_mirror` is the bit-order command (0x0C, or 0x08 when
mirror_y is set), not a command-set selector; the selector 0x30 comes second.
After an init that failed on its 6th call, just after selecting command set 2
with 0x31, a mirror call therefore sends 0x0C with no selector in between. -/
theorem mirror_first_transaction_is_not_selector :
    (panel_st75256_mirror okEnv landscape_panel false false World.fresh).2.2.trace
      = [cmd 0x0C, cmd 0x30, cmd 0xBC, data [0x00]] ∧
    (panel_st75256_mirror okEnv landscape_panel false true World.fresh).2.2.trace
      = [cmd 0x08, cmd 0x30, cmd 0xBC, data [0x01]] ∧
    cmd 0x0C ≠ cmd 0x30 ∧ cmd 0x0C ≠ cmd 0x31 ∧ cmd 0x08 ≠ cmd 0x30 ∧ cmd 0x08 ≠ cmd 0x31 ∧
    (panel_st75256_init (failAt 5 (-1)) landscape_panel World.fresh).1 = -1 ∧
    (panel_st75256_mirror (failAt 5 (-1)) landscape_panel false false
        (panel_st75256_init (failAt 5 (-1)) landscape_panel World.fresh).2).2.2.trace
      = [cmd 0x30, cmd 0xAE, cmd 0x94, cmd 0x08, cmd 0x31, cmd 0xD7,
         cmd 0x0C, cmd 0x30, cmd 0xBC, data [0x00]] := by
  refine ⟨rfl, rfl, by decide, by decide, by decide, by decide, rfl, rfl⟩

/-- The result of an operation whose channel fails on call number `k`
(counted from zero within the operation). -/
theorem run_fail_result (env : Env) (p : st75256_panel_t) (w : World) (op : PanelOp)
    (k : Nat) (e : esp_err_t) (hk : k < (op.script p w).length) (he : e ≠ ESP_OK)
    (hok : ∀ i, i < k → env.chan (w.calls + i) = ESP_OK)
    (hfail : env.chan (w.calls + k) = e) :
    (op.run env p w).1 = e := by
  have h := run_eq_script env p w op
  rw [runScript_fail env _ _ _ k e (script_isTx p w op) hk he
    (by rw [entry_calls]; exact hok) (by rw [entry_calls]; exact hfail)] at h
  exact congrArg Prod.fst h

/-- C16: state written before a failing transport call is not rolled back.
The two operations are taken on channels and worlds of their own.  For every
state: when the channel fails with error em on any one of the four calls of
`panel_st75256_mirror(mx, my)` (call km = 0, 1, 2 or 3, earlier calls
succeeding) the call returns em and the panel has y_mirror = my; when the
channel fails with es on any one of the three calls of
`panel_st75256_swap_xy(v)` (call ks = 0, 1 or 2) the call returns es and the
panel has swap_axes = v.  The other fields are those before the call. -/
theorem failed_call_keeps_mutation (envm envs : Env) (p : st75256_panel_t) (wm ws : World)
    (mx my v : Bool) (km ks : Nat) (em es : esp_err_t)
    (hkm : km < 4) (hks : ks < 3) (hem : em ≠ ESP_OK) (hes : es ≠ ESP_OK)
    (hokm : ∀ i, i < km → envm.chan (wm.calls + i) = ESP_OK)
    (hfm : envm.chan (wm.calls + km) = em)
    (hoks : ∀ i, i < ks → envs.chan (ws.calls + i) = ESP_OK)
    (hfs : envs.chan (ws.calls + ks) = es) :
    (panel_st75256_mirror envm p mx my wm).1 = em ∧
    (panel_st75256_mirror envm p mx my wm).2.1.y_mirror = my ∧
    (panel_st75256_mirror envm p mx my wm).2.1 = { p with y_mirror := my } ∧
    (panel_st75256_swap_xy envs p v ws).1 = es ∧
    (panel_st75256_swap_xy envs p v ws).2.1.swap_axes = v ∧
    (panel_st75256_swap_xy envs p v ws).2.1 = { p with swap_axes := v } := by
  refine ⟨?_, ?_, mirror_panel envm p mx my wm, ?_, rfl, rfl⟩
  · exact run_fail_result envm p wm (PanelOp.mirror mx my) km em hkm hem hokm hfm
  · rw [mirror_panel]
  · exact run_fail_result envs p ws (PanelOp.swap_xy v) ks es hks hes hoks hfs

/-- Witness for C16: mirror(false, true) on a channel failing with -1 on the
fourth and last call of mirror, and swap_xy(true) on a channel failing with
0x107 on the third and last call of swap_xy, both on the landscape panel:
each returns its error with y_mirror, resp. swap_axes, already set. -/
theorem failed_call_keeps_mutation_witness :
    (panel_st75256_mirror (failAt 3 (-1)) landscape_panel false true World.fresh).1 = -1 ∧
    (panel_st75256_mirror (failAt 3 (-1)) landscape_panel false true World.fresh).2.1.y_mirror
      = true ∧
    (panel_st75256_mirror (failAt 3 (-1)) landscape_panel false true World.fresh).2.1
      = { landscape_panel with y_mirror := true } ∧
    (panel_st75256_swap_xy (failAt 2 0x107) landscape_panel true World.fresh).1 = 0x107 ∧
    (panel_st75256_swap_xy (failAt 2 0x107) landscape_panel true World.fresh).2.1.swap_axes
      = true ∧
    (panel_st75256_swap_xy (failAt 2 0x107) landscape_panel true World.fresh).2.1
      = { landscape_panel with swap_axes := true } :=
  failed_call_keeps_mutation (failAt 3 (-1)) (failAt 2 0x107) landscape_panel
    World.fresh World.fresh false true true 3 2 (-1) 0x107
    (by decide) (by decide) (by decide) (by decide)
    (fun i hi => by interval_cases i <;> rfl)
    rfl
    (fun i hi => by interval_cases i <;> rfl)
    rfl

/-- C17: on a non-failing channel `panel_st75256_invert_color(v)` issues
exactly 0x30 then (v ? 0xA7 : 0xA6), and `panel_st75256_disp_on_off(v)` issues
exactly 0x30 then (v ? 0xAF : 0xAE), followed by one 10 ms delay if and only
if v is true; both return ESP_OK and leave the panel structure and the scratch
buffer as they were. -/
theorem invert_and_power_effect (env : Env) (p : st75256_panel_t) (w : World) (v : Bool)
    (hok : ∀ n, env.chan n = ESP_OK) :
    (panel_st75256_invert_color env p v w).1 = ESP_OK ∧
    (panel_st75256_invert_color env p v w).2.trace
      = w.trace ++ [cmd 0x30, cmd (if v then 0xA7 else 0xA6)] ∧
    (panel_st75256_disp_on_off env p v w).1 = ESP_OK ∧
    (panel_st75256_disp_on_off env p v w).2.trace
      = w.trace ++ [cmd 0x30, cmd (if v then 0xAF else 0xAE)] ++
          (if v then [Event.vTaskDelay_ms 10] else []) ∧
    ((PanelOp.invert_color v).run env p w).2.1 = p ∧
    ((PanelOp.disp_on_off v).run env p w).2.1 = p ∧
    (panel_st75256_invert_color env p v w).2.s_remap_buffer = w.s_remap_buffer ∧
    (panel_st75256_disp_on_off env p v w).2.s_remap_buffer = w.s_remap_buffer := by
  have hi := run_ok env hok p w (PanelOp.invert_color v)
  have hd := run_ok env hok p w (PanelOp.disp_on_off v)
  have hi1 : (panel_st75256_invert_color env p v w).1 = ESP_OK := congrArg Prod.fst hi
  have hi2 : (panel_st75256_invert_color env p v w).2
      = { w with trace := w.trace ++ [cmd 0x30, cmd (if v then 0xA7 else 0xA6)] } :=
    congrArg Prod.snd hi
  have hd1 : (panel_st75256_disp_on_off env p v w).1 = ESP_OK := by
    have := congrArg Prod.fst hd
    cases v <;> exact this
  have hd2 : (panel_st75256_disp_on_off env p v w).2
      = { w with trace := w.trace ++ [cmd 0x30, cmd (if v then 0xAF else 0xAE)] ++
            (if v then [Event.vTaskDelay_ms 10] else []) } := by
    have := congrArg Prod.snd hd
    cases v
    · simpa [PanelOp.finish, PanelOp.script, PanelOp.entry, PanelOp.run] using this
    · simpa [PanelOp.finish, PanelOp.script, PanelOp.entry, PanelOp.run, vTaskDelay_ms]
        using this
  refine ⟨hi1, ?_, hd1, ?_, rfl, rfl, ?_, ?_⟩
  · rw [hi2]
  · rw [hd2]
  · rw [hi2]
  · rw [hd2]

/-- Witness for C17: v = true on the landscape panel: 0x30, 0xA7 for invert
and 0x30, 0xAF and a 10 ms delay for power-on. -/
theorem invert_and_power_effect_witness :
    (panel_st75256_invert_color okEnv landscape_panel true World.fresh).1 = ESP_OK ∧
    (panel_st75256_invert_color okEnv landscape_panel true World.fresh).2.trace
      = World.fresh.trace ++ [cmd 0x30, cmd 0xA7] ∧
    (panel_st75256_disp_on_off okEnv landscape_panel true World.fresh).1 = ESP_OK ∧
    (panel_st75256_disp_on_off okEnv landscape_panel true World.fresh).2.trace
      = World.fresh.trace ++ [cmd 0x30, cmd 0xAF] ++ [Event.vTaskDelay_ms 10] ∧
    ((PanelOp.invert_color true).run okEnv landscape_panel World.fresh).2.1 = landscape_panel ∧
    ((PanelOp.disp_on_off true).run okEnv landscape_panel World.fresh).2.1 = landscape_panel ∧
    (panel_st75256_invert_color okEnv landscape_panel true World.fresh).2.s_remap_buffer
      = World.fresh.s_remap_buffer ∧
    (panel_st75256_disp_on_off okEnv landscape_panel true World.fresh).2.s_remap_buffer
      = World.fresh.s_remap_buffer :=
  invert_and_power_effect okEnv landscape_panel World.fresh true (fun _ => rfl)

/-- C18: `panel_st75256_set_gap(x, y)` is a pure state update: for every state
and world it returns ESP_OK, leaves the world (trace and scratch buffer)
untouched, so that no channel transaction is issued whatever the channel
would answer, sets x_gap = x and y_gap = y, and leaves swap_axes, y_mirror,
width, height and every other field unchanged. -/
theorem set_gap_effect (p : st75256_panel_t) (x y : Int) (w : World) :
    (panel_st75256_set_gap p x y w).1 = ESP_OK ∧
    (panel_st75256_set_gap p x y w).2.2 = w ∧
    (panel_st75256_set_gap p x y w).2.2.calls = w.calls ∧
    (panel_st75256_set_gap p x y w).2.1.x_gap = x ∧
    (panel_st75256_set_gap p x y w).2.1.y_gap = y ∧
    (panel_st75256_set_gap p x y w).2.1 = { p with x_gap := x, y_gap := y } ∧
    (panel_st75256_set_gap p x y w).2.1.swap_axes = p.swap_axes ∧
    (panel_st75256_set_gap p x y w).2.1.y_mirror = p.y_mirror ∧
    (panel_st75256_set_gap p x y w).2.1.width = p.width ∧
    (panel_st75256_set_gap p x y w).2.1.height = p.height :=
  ⟨rfl, rfl, rfl, rfl, rfl, rfl, rfl, rfl, rfl, rfl⟩

/-! ## Addressable range and scratch-buffer bound -/

/-- The physical rectangle of an in-bounds logical rectangle, for zero gap:
it lies in columns [0, 256] and rows [0, 168] and, when the axes are swapped,
spans at most 16 pages. -/
theorem rect_in_bounds (p : st75256_panel_t) (x_start y_start x_end y_end W H : Int)
    (hxg : p.x_gap = 0) (hyg : p.y_gap = 0)
    (hW : W = if p.swap_axes then 128 else 256)
    (hH : H = if p.swap_axes then 256 else 128)
    (hx0 : 0 ≤ x_start) (hx1 : x_start < x_end) (hx2 : x_end ≤ W)
    (hy0 : 0 ≤ y_start) (hy1 : y_start < y_end) (hy2 : y_end ≤ H) :
    0 ≤ (panel_st75256_draw_bitmap_rect p x_start y_start x_end y_end).x_start ∧
    (panel_st75256_draw_bitmap_rect p x_start y_start x_end y_end).x_start
      < (panel_st75256_draw_bitmap_rect p x_start y_start x_end y_end).x_end ∧
    (panel_st75256_draw_bitmap_rect p x_start y_start x_end y_end).x_end ≤ 256 ∧
    0 ≤ (panel_st75256_draw_bitmap_rect p x_start y_start x_end y_end).y_start ∧
    (panel_st75256_draw_bitmap_rect p x_start y_start x_end y_end).y_start
      < (panel_st75256_draw_bitmap_rect p x_start y_start x_end y_end).y_end ∧
    (panel_st75256_draw_bitmap_rect p x_start y_start x_end y_end).y_end ≤ 168 ∧
    (p.swap_axes = true →
      ((panel_st75256_draw_bitmap_rect p x_start y_start x_end y_end).y_end - 1) / 8
        - (panel_st75256_draw_bitmap_rect p x_start y_start x_end y_end).y_start / 8 + 1
        ≤ 16) := by
  have h168 : (ST75256_TOTAL_PAGES + 1) * 8 = 168 := by decide
  cases hs : p.swap_axes <;> cases hmir : p.y_mirror
  · rw [rect_identity p _ _ _ _ hs hmir hxg hyg]
    rw [hs] at hW hH
    simp only [Bool.false_eq_true, if_false] at hW hH
    refine ⟨?_, ?_, ?_, ?_, ?_, ?_, ?_⟩ <;> simp only <;> omega
  · rw [rect_mirror_noswap p _ _ _ _ hs hmir, hxg, hyg, h168]
    rw [hs] at hW hH
    simp only [Bool.false_eq_true, if_false] at hW hH
    refine ⟨?_, ?_, ?_, ?_, ?_, ?_, ?_⟩ <;> simp only <;> omega
  · rw [rect_swapped p _ _ _ _ hs hmir hxg hyg]
    rw [hs] at hW hH
    simp only [if_true] at hW hH
    refine ⟨?_, ?_, ?_, ?_, ?_, ?_, ?_⟩ <;> simp only <;> omega
  · rw [rect_mirror_swap p _ _ _ _ hs hmir, hxg, hyg, h168]
    rw [hs] at hW hH
    simp only [if_true] at hW hH
    refine ⟨?_, ?_, ?_, ?_, ?_, ?_, ?_⟩ <;> simp only <;> omega

/-- C19: for every in-bounds logical rectangle (0 <= x_start < x_end <= W and
0 <= y_start < y_end <= H, with (W, H) = (256, 128) when swap_axes is false
and (128, 256) when it is true), zero gap and either value of y_mirror, the
window sent on a non-failing channel satisfies
0 <= column_start <= column_end <= 255 and 0 <= page_start <= page_end <= 20,
and the 8-bit parameters sent are these values, untruncated. -/
theorem draw_window_addressable (env : Env) (p : st75256_panel_t)
    (x_start y_start x_end y_end W H : Int) (color_data : List Nat) (w : World) (r : Rect)
    (hok : ∀ n, env.chan n = ESP_OK)
    (hxg : p.x_gap = 0) (hyg : p.y_gap = 0)
    (hW : W = if p.swap_axes then 128 else 256)
    (hH : H = if p.swap_axes then 256 else 128)
    (hx0 : 0 ≤ x_start) (hx1 : x_start < x_end) (hx2 : x_end ≤ W)
    (hy0 : 0 ≤ y_start) (hy1 : y_start < y_end) (hy2 : y_end ≤ H)
    (hr : r = panel_st75256_draw_bitmap_rect p x_start y_start x_end y_end) :
    (0 ≤ r.x_start ∧ r.x_start ≤ r.x_end - 1 ∧ r.x_end - 1 ≤ 255) ∧
    (0 ≤ r.y_start.tdiv 8 ∧ r.y_start.tdiv 8 ≤ (r.y_end - 1).tdiv 8 ∧
      (r.y_end - 1).tdiv 8 ≤ 20) ∧
    ∃ payload size,
      (panel_st75256_draw_bitmap env p x_start y_start x_end y_end color_data w).2.trace
        = w.trace ++
          [cmd 0x30,
           cmd 0x15, data [r.x_start.toNat, (r.x_end - 1).toNat],
           cmd 0x75, data [(r.y_start.tdiv 8).toNat, ((r.y_end - 1).tdiv 8).toNat],
           cmd 0x5C, Event.tx_color (-1) payload size] := by
  obtain ⟨b1, b2, b3, b4, b5, b6, _⟩ :=
    rect_in_bounds p x_start y_start x_end y_end W H hxg hyg hW hH hx0 hx1 hx2 hy0 hy1 hy2
  rw [← hr] at b1 b2 b3 b4 b5 b6
  rw [tdiv_eight _ b4, tdiv_eight _ (by omega)]
  refine ⟨by omega, by omega, ?_⟩
  rw [draw_ok env hok, ← hr, drawScript_in_range r _ b1 b2 b3 b4 b5 b6]
  exact ⟨_, _, rfl⟩

/-- Witness for C19: the full portrait frame (0,0)-(128,256) with swap_axes
and y_mirror set: columns [0, 255], rows [40, 168), pages [5, 20]. -/
theorem draw_window_addressable_witness :
    (0 ≤ (0 : Int) ∧ (0 : Int) ≤ 256 - 1 ∧ (256 : Int) - 1 ≤ 255) ∧
    (0 ≤ (40 : Int).tdiv 8 ∧ (40 : Int).tdiv 8 ≤ ((168 : Int) - 1).tdiv 8 ∧
      ((168 : Int) - 1).tdiv 8 ≤ 20) ∧
    ∃ payload size,
      (panel_st75256_draw_bitmap okEnv { portrait_panel with y_mirror := true }
          0 0 128 256 (List.replicate 4096 0) World.fresh).2.trace
        = World.fresh.trace ++
          [cmd 0x30,
           cmd 0x15, data [0, 255],
           cmd 0x75, data [5, 20],
           cmd 0x5C, Event.tx_color (-1) payload size] :=
  draw_window_addressable okEnv { portrait_panel with y_mirror := true }
    0 0 128 256 128 256 (List.replicate 4096 0) World.fresh
    { x_start := 0, y_start := 40, x_end := 256, y_end := 168 }
    (fun _ => rfl) rfl rfl rfl rfl (by decide) (by decide) (by decide) (by decide) (by decide)
    (by decide) (by decide)

/-- C20: the remap scratch buffer is never exceeded.  With swap_axes = true,
zero gap and either value of y_mirror, for every logical rectangle with
0 <= x_start < x_end <= 128 and 0 <= y_start < y_end <= 256 the payload sent
on a non-failing channel is read from the 4096-byte remapped scratch buffer
and its length, (page_end - page_start + 1) * (physical_x_end -
physical_x_start), is at most 4096. -/
theorem draw_swapped_payload_fits (env : Env) (p : st75256_panel_t)
    (x_start y_start x_end y_end : Int) (color_data : List Nat) (w : World) (r : Rect)
    (hok : ∀ n, env.chan n = ESP_OK)
    (hswap : p.swap_axes = true) (hxg : p.x_gap = 0) (hyg : p.y_gap = 0)
    (hx0 : 0 ≤ x_start) (hx1 : x_start < x_end) (hx2 : x_end ≤ 128)
    (hy0 : 0 ≤ y_start) (hy1 : y_start < y_end) (hy2 : y_end ≤ 256)
    (hr : r = panel_st75256_draw_bitmap_rect p x_start y_start x_end y_end) :
    (panel_st75256_draw_bitmap env p x_start y_start x_end y_end color_data w).2.trace
      = w.trace ++
        [cmd 0x30,
         cmd 0x15, data [r.x_start.toNat, (r.x_end - 1).toNat],
         cmd 0x75, data [(r.y_start / 8).toNat, ((r.y_end - 1) / 8).toNat],
         cmd 0x5C,
         Event.tx_color (-1)
           (st75256_remap_swapped_frame color_data (List.replicate (16 * 256) 0))
           ((((r.y_end - 1) / 8 - r.y_start / 8 + 1) * (r.x_end - r.x_start)).toNat)] ∧
    (((r.y_end - 1) / 8 - r.y_start / 8 + 1) * (r.x_end - r.x_start)).toNat ≤ 4096 ∧
    (st75256_remap_swapped_frame color_data (List.replicate (16 * 256) 0)).length = 4096 := by
  obtain ⟨b1, b2, b3, b4, b5, b6, b7⟩ :=
    rect_in_bounds p x_start y_start x_end y_end 128 256 hxg hyg (by rw [hswap]; rfl)
      (by rw [hswap]; rfl) hx0 hx1 hx2 hy0 hy1 hy2
  have b8 := b7 hswap
  rw [← hr] at b1 b2 b3 b4 b5 b6 b8
  refine ⟨?_, ?_, ?_⟩
  · rw [draw_ok env hok, ← hr, drawScript_in_range r _ b1 b2 b3 b4 b5 b6, hswap]
    rfl
  · have hA0 : 0 ≤ (r.y_end - 1) / 8 - r.y_start / 8 + 1 := by omega
    have hB0 : 0 ≤ r.x_end - r.x_start := by omega
    have hB1 : r.x_end - r.x_start ≤ 256 := by omega
    have hprod : ((r.y_end - 1) / 8 - r.y_start / 8 + 1) * (r.x_end - r.x_start) ≤ 4096 := by
      nlinarith
    omega
  · rw [remap_length, List.length_replicate]

/-- Witness for C20: the full portrait frame (0,0)-(128,256) with y_mirror
set sends 16 pages of 256 columns, exactly 4096 bytes. -/
theorem draw_swapped_payload_fits_witness :
    (panel_st75256_draw_bitmap okEnv { portrait_panel with y_mirror := true }
        0 0 128 256 (List.replicate 4096 0) World.fresh).2.trace
      = World.fresh.trace ++
        [cmd 0x30,
         cmd 0x15, data [0, 255],
         cmd 0x75, data [5, 20],
         cmd 0x5C,
         Event.tx_color (-1)
           (st75256_remap_swapped_frame (List.replicate 4096 0) (List.replicate (16 * 256) 0))
           4096] ∧
    (4096 : Nat) ≤ 4096 ∧
    (st75256_remap_swapped_frame (List.replicate 4096 0)
      (List.replicate (16 * 256) 0)).length = 4096 :=
  draw_swapped_payload_fits okEnv { portrait_panel with y_mirror := true }
    0 0 128 256 (List.replicate 4096 0) World.fresh
    { x_start := 0, y_start := 40, x_end := 256, y_end := 168 }
    (fun _ => rfl) rfl rfl rfl (by decide) (by decide) (by decide) (by decide) (by decide)
    (by decide) (by decide)

/-! ## Mirror formula -/

/-- C21: the mirror formula `st75256_apply_mirror` is an involution: for all
integers start and end, applying it twice to (start, end) returns
(start, end). -/
theorem apply_mirror_involutive (start stop : Int) :
    st75256_apply_mirror (st75256_apply_mirror start stop).1
        (st75256_apply_mirror start stop).2
      = (start, stop) := by
  unfold st75256_apply_mirror
  simp only [Prod.mk.injEq]
  constructor <;> omega

/-- C22 (code evaluated at the failing input): the window that init programs
for the RAM clear has column parameters [0, 255], within 0..255, but page
parameters [0, 40]: the page end 40 is above the last addressable page,
`ST75256_TOTAL_PAGES` = 20. -/
theorem init_page_window_exceeds_range :
    ((panel_st75256_init okEnv landscape_panel World.fresh).2.trace.drop 22).take 4
      = [cmd 0x15, data [0, 255], cmd 0x75, data [0, 40]] ∧
    ((0 : Int) ≤ 0 ∧ (0 : Int) ≤ 255 ∧ (255 : Int) ≤ 255) ∧
    ST75256_TOTAL_PAGES = 20 ∧
    ¬ ((0 : Int) ≤ 0 ∧ (0 : Int) ≤ 40 ∧ (40 : Int) ≤ ST75256_TOTAL_PAGES) := by
  rw [init_ok okEnv (fun _ => rfl)]
  refine ⟨rfl, by decide, rfl, by decide⟩

/-! ## Scratch buffer reuse -/

/-- C24: with swap_axes = true a draw does not depend on what an earlier draw
left in the scratch buffer: for any two prior contents `buf1`, `buf2` of the
scratch buffer and the same channel, panel state, rectangle, source buffer and
trace so far, the result, the transactions issued and the scratch buffer left
behind are identical. -/
theorem draw_independent_of_scratch (env : Env) (p : st75256_panel_t)
    (x_start y_start x_end y_end : Int) (color_data : List Nat) (w : World)
    (buf1 buf2 : List Nat) (hswap : p.swap_axes = true) :
    panel_st75256_draw_bitmap env p x_start y_start x_end y_end color_data
        { w with s_remap_buffer := buf1 }
      = panel_st75256_draw_bitmap env p x_start y_start x_end y_end color_data
        { w with s_remap_buffer := buf2 } := by
  have hs : ∀ buf, panel_st75256_draw_bitmap_scratch p color_data { w with s_remap_buffer := buf }
      = { trace := w.trace,
          s_remap_buffer :=
            st75256_remap_swapped_frame color_data (List.replicate (16 * 256) 0) } := by
    intro buf
    unfold panel_st75256_draw_bitmap_scratch
    rw [if_pos hswap]
  rw [draw_eq_script, draw_eq_script, hs buf1, hs buf2]

/-- Witness for C24: the portrait panel, rectangle (0,0)-(128,8), scratch
buffer all 0xFF against all zero. -/
theorem draw_independent_of_scratch_witness :
    panel_st75256_draw_bitmap okEnv portrait_panel 0 0 128 8 (List.replicate 4096 1)
        { World.fresh with s_remap_buffer := List.replicate 4096 0xFF }
      = panel_st75256_draw_bitmap okEnv portrait_panel 0 0 128 8 (List.replicate 4096 1)
        { World.fresh with s_remap_buffer := List.replicate 4096 0 } :=
  draw_independent_of_scratch okEnv portrait_panel 0 0 128 8 (List.replicate 4096 1)
    World.fresh (List.replicate 4096 0xFF) (List.replicate 4096 0) rfl

/-! ## Mirrored page window -/

/-- C25: Y mirroring reflects the page window and keeps its size.  For
swap_axes = false, zero gap and every rectangle with
0 <= y_start < y_end <= 168, on a non-failing channel: without mirror the page
window sent is [ps, pe] = [y_start / 8, (y_end - 1) / 8]; with y_mirror = true
it is [20 - pe, 20 - ps]; the column parameters, the buffer and the payload
byte count are the same in both draws, and so is the number of pages. -/
theorem mirror_reflects_page_window (env : Env) (p : st75256_panel_t)
    (x_start y_start x_end y_end : Int) (color_data : List Nat) (w : World) (ps pe : Nat)
    (hok : ∀ n, env.chan n = ESP_OK)
    (hswap : p.swap_axes = false) (hxg : p.x_gap = 0) (hyg : p.y_gap = 0)
    (hy0 : 0 ≤ y_start) (hy1 : y_start < y_end) (hy2 : y_end ≤ 168)
    (hps : ps = (y_start / 8).toNat) (hpe : pe = ((y_end - 1) / 8).toNat) :
    ps ≤ pe ∧ pe ≤ 20 ∧ (20 - ps) - (20 - pe) + 1 = pe - ps + 1 ∧
    ∃ cols size,
      (panel_st75256_draw_bitmap env { p with y_mirror := false }
          x_start y_start x_end y_end color_data w).2.trace
        = w.trace ++
          [cmd 0x30, cmd 0x15, data cols, cmd 0x75, data [ps, pe], cmd 0x5C,
           Event.tx_color (-1) color_data size] ∧
      (panel_st75256_draw_bitmap env { p with y_mirror := true }
          x_start y_start x_end y_end color_data w).2.trace
        = w.trace ++
          [cmd 0x30, cmd 0x15, data cols, cmd 0x75, data [20 - pe, 20 - ps], cmd 0x5C,
           Event.tx_color (-1) color_data size] := by
  have h168 : (ST75256_TOTAL_PAGES + 1) * 8 = 168 := by decide
  have e1 : uint8_t (y_start.tdiv 8) = ps := by
    rw [tdiv_eight _ hy0, uint8_t_of_range _ (by omega) (by omega), hps]
  have e2 : uint8_t ((y_end - 1).tdiv 8) = pe := by
    rw [tdiv_eight _ (by omega), uint8_t_of_range _ (by omega) (by omega), hpe]
  have e3 : uint8_t ((168 - y_end).tdiv 8) = 20 - pe := by
    rw [tdiv_eight _ (by omega), uint8_t_of_range _ (by omega) (by omega), hpe]
    omega
  have e4 : uint8_t ((168 - y_start - 1).tdiv 8) = 20 - ps := by
    rw [tdiv_eight _ (by omega), uint8_t_of_range _ (by omega) (by omega), hps]
    omega
  have hle : ps ≤ pe := by omega
  have hpe20 : pe ≤ 20 := by omega
  have hcast : ((20 - ps : Nat) : Int) - ((20 - pe : Nat) : Int) + 1
      = (pe : Int) - (ps : Int) + 1 := by omega
  refine ⟨hle, hpe20, by omega, [uint8_t x_start, uint8_t (x_end - 1)],
    size_t ((uint8_t ((pe : Int) - (ps : Int) + 1) : Int) * (x_end - x_start)), ?_, ?_⟩
  · rw [draw_ok env hok,
      rect_identity { p with y_mirror := false } _ _ _ _ hswap rfl hxg hyg]
    show w.trace ++ drawScript _ (if p.swap_axes = true then _ else color_data) = _
    rw [hswap]
    simp only [drawScript, e1, e2, Bool.false_eq_true, if_false]
  · rw [draw_ok env hok, rect_mirror_noswap { p with y_mirror := true } _ _ _ _ hswap rfl]
    show w.trace ++ drawScript
      { x_start := x_start + p.x_gap, y_start := (ST75256_TOTAL_PAGES + 1) * 8 - (y_end + p.y_gap),
        x_end := x_end + p.x_gap, y_end := (ST75256_TOTAL_PAGES + 1) * 8 - (y_start + p.y_gap) }
      (if p.swap_axes = true then _ else color_data) = _
    rw [hswap, hxg, hyg, h168]
    simp only [drawScript, add_zero, e3, e4, hcast, Bool.false_eq_true, if_false]

/-- Witness for C25: rows [8, 24) on the landscape panel: pages [1, 2]
without mirror, [18, 19] with mirror. -/
theorem mirror_reflects_page_window_witness :
    1 ≤ 2 ∧ 2 ≤ 20 ∧ (20 - 1) - (20 - 2) + 1 = 2 - 1 + 1 ∧
    ∃ cols size,
      (panel_st75256_draw_bitmap okEnv { landscape_panel with y_mirror := false }
          0 8 256 24 (List.replicate 512 0) World.fresh).2.trace
        = World.fresh.trace ++
          [cmd 0x30, cmd 0x15, data cols, cmd 0x75, data [1, 2], cmd 0x5C,
           Event.tx_color (-1) (List.replicate 512 0) size] ∧
      (panel_st75256_draw_bitmap okEnv { landscape_panel with y_mirror := true }
          0 8 256 24 (List.replicate 512 0) World.fresh).2.trace
        = World.fresh.trace ++
          [cmd 0x30, cmd 0x15, data cols, cmd 0x75, data [20 - 2, 20 - 1], cmd 0x5C,
           Event.tx_color (-1) (List.replicate 512 0) size] :=
  mirror_reflects_page_window okEnv landscape_panel 0 8 256 24 (List.replicate 512 0)
    World.fresh 1 2 (fun _ => rfl) rfl rfl rfl (by decide) (by decide) (by decide)
    (by decide) (by decide)

/-! ## Remap: the bound is never hit, and the payload of a swapped draw -/

theorem mem_setBits (l : List Nat) (b k : Nat) :
    (b, k) ∈ (Finset.range 4096 ×ˢ Finset.range 8).filter
        (fun bk => (l.getD bk.1 0).testBit bk.2 = true)
      ↔ (b < 4096 ∧ k < 8) ∧ (l.getD b 0).testBit k = true := by
  simp only [Finset.mem_filter, Finset.mem_product, Finset.mem_range]

set_option linter.constructorNameAsVariable false in
/-- The remap moves set bits one-to-one, so their number is kept. -/
theorem remap_setBitCount (src : List Nat) :
    setBitCount (st75256_remap_swapped_frame src (List.replicate (16 * 256) 0))
      = setBitCount src := by
  unfold setBitCount
  apply Finset.card_bij
    (fun bk _ => ((bk.1 % 16) * 8 + bk.2 + (bk.1 / 16 / 8) * 128, bk.1 / 16 % 8))
  · rintro ⟨b, k⟩ hbk
    rw [mem_setBits, remap_zero_testBit] at hbk
    rw [mem_setBits]
    simp only [Bool.and_eq_true, decide_eq_true_eq] at hbk
    obtain ⟨⟨hb, hk⟩, _, hsrc⟩ := hbk
    exact ⟨⟨by omega, by omega⟩, hsrc⟩
  · rintro ⟨b1, k1⟩ h1 ⟨b2, k2⟩ h2 heq
    rw [mem_setBits] at h1 h2
    simp only [Prod.mk.injEq] at heq ⊢
    omega
  · rintro ⟨i, j⟩ hij
    rw [mem_setBits] at hij
    obtain ⟨⟨hi, hj⟩, hsrc⟩ := hij
    have hidx : ((((i / 128) * 8 + j) * 16 + (i % 128) / 8) % 16) * 8 + (i % 128) % 8
        + ((((i / 128) * 8 + j) * 16 + (i % 128) / 8) / 16 / 8) * 128 = i := by omega
    have hbt : (((i / 128) * 8 + j) * 16 + (i % 128) / 8) / 16 % 8 = j := by omega
    refine ⟨(((i / 128) * 8 + j) * 16 + (i % 128) / 8, (i % 128) % 8), ?_, ?_⟩
    · rw [mem_setBits, remap_zero_testBit]
      simp only [Bool.and_eq_true, decide_eq_true_eq]
      rw [hidx, hbt]
      exact ⟨⟨by omega, by omega⟩, ⟨by omega, by omega⟩, hsrc⟩
    · simp only [Prod.mk.injEq]
      exact ⟨hidx, hbt⟩

/-- C23: the defensive bound in `st75256_remap_swapped_frame` never triggers.
For every page in 0..31, x in 0..127 and bit in 0..7 the destination index
(page*8 + bit)*16 + x/8 lies in [0, 4096), so the loop body writes the bit
whenever the source bit is set; for a zeroed destination the destination bit
at that position equals the source bit, and the destination has exactly as
many set bits as the source. -/
theorem remap_bound_never_triggers (src dst : List Nat) (sb page x bit : Nat)
    (_hlen : src.length = 32 * 128) (hpage : page < 32) (hx : x < 128) (hbit : bit < 8) :
    (0 ≤ (((page * 8 + bit) * 16 + x / 8 : Nat) : Int) ∧
      (page * 8 + bit) * 16 + x / 8 < 16 * 256) ∧
    remap_bit sb page x dst bit
      = (if sb.testBit bit = true then
          dst.set ((page * 8 + bit) * 16 + x / 8)
            ((dst.getD ((page * 8 + bit) * 16 + x / 8) 0 ||| (1 <<< (x % 8))) % 256)
         else dst) ∧
    ((st75256_remap_swapped_frame src (List.replicate (16 * 256) 0)).getD
        ((page * 8 + bit) * 16 + x / 8) 0).testBit (x % 8)
      = (src.getD (x + page * 128) 0).testBit bit ∧
    setBitCount (st75256_remap_swapped_frame src (List.replicate (16 * 256) 0))
      = setBitCount src := by
  have hin : (page * 8 + bit) * 16 + x / 8 < 16 * 256 := by omega
  refine ⟨⟨by omega, hin⟩, ?_, ?_, remap_setBitCount src⟩
  · unfold remap_bit
    dsimp only
    by_cases hs : sb.testBit bit = true
    · rw [if_pos ((and_shift_ne_zero sb bit).2 hs), if_pos hs, if_neg (by omega)]
    · rw [if_neg (fun h => hs ((and_shift_ne_zero sb bit).1 h)), if_neg hs]
  · rw [remap_zero_testBit]
    have hidx : (((page * 8 + bit) * 16 + x / 8) % 16) * 8 + x % 8
        + (((page * 8 + bit) * 16 + x / 8) / 16 / 8) * 128 = x + page * 128 := by omega
    have hbt : ((page * 8 + bit) * 16 + x / 8) / 16 % 8 = bit := by omega
    rw [hidx, hbt]
    have hd : decide ((page * 8 + bit) * 16 + x / 8 < 4096 ∧ x % 8 < 8) = true := by
      simp only [decide_eq_true_eq]
      omega
    rw [hd, Bool.true_and]

/-- Witness for C23: the last source position, page 31, x 127, bit 7, goes to
destination index 4095. -/
theorem remap_bound_never_triggers_witness :
    (0 ≤ (((31 * 8 + 7) * 16 + 127 / 8 : Nat) : Int) ∧
      (31 * 8 + 7) * 16 + 127 / 8 < 16 * 256) ∧
    remap_bit 0x80 31 127 (List.replicate (16 * 256) 0) 7
      = (if (0x80 : Nat).testBit 7 = true then
          (List.replicate (16 * 256) 0).set ((31 * 8 + 7) * 16 + 127 / 8)
            (((List.replicate (16 * 256) 0).getD ((31 * 8 + 7) * 16 + 127 / 8) 0
              ||| (1 <<< (127 % 8))) % 256)
         else List.replicate (16 * 256) 0) ∧
    ((st75256_remap_swapped_frame (List.replicate (32 * 128) 0x80)
        (List.replicate (16 * 256) 0)).getD ((31 * 8 + 7) * 16 + 127 / 8) 0).testBit (127 % 8)
      = ((List.replicate (32 * 128) 0x80).getD (127 + 31 * 128) 0).testBit 7 ∧
    setBitCount (st75256_remap_swapped_frame (List.replicate (32 * 128) 0x80)
        (List.replicate (16 * 256) 0))
      = setBitCount (List.replicate (32 * 128) 0x80) :=
  remap_bound_never_triggers (List.replicate (32 * 128) 0x80) (List.replicate (16 * 256) 0)
    0x80 31 127 7 (List.length_replicate _ _) (by decide) (by decide) (by decide)

theorem take_getD (l : List Nat) (n i : Nat) (h : i < n) : (l.take n).getD i 0 = l.getD i 0 := by
  rw [List.getD_eq_getElem?_getD, List.getD_eq_getElem?_getD, List.getElem?_take_of_lt h]

/-- C26: for every h with 1 <= h <= 256 and every 4096-byte source buffer, a
draw with swap_axes = true, y_mirror = false, zero gap and rectangle
(0,0)-(128,h) on a non-failing channel sends column window [0, h - 1], page
window [0, 15] and a payload of exactly 16*h bytes, the first 16*h bytes of
the remapped buffer; for all 0 <= X < 128 and 0 <= Y < h, bit (X % 8) of
payload byte (Y*16 + X/8) equals bit (Y % 8) of source byte (X + (Y/8)*128). -/
theorem draw_swapped_payload_rows (env : Env) (p : st75256_panel_t) (h : Nat)
    (src : List Nat) (w : World) (X Y : Nat)
    (hok : ∀ n, env.chan n = ESP_OK)
    (hswap : p.swap_axes = true) (hmir : p.y_mirror = false)
    (hxg : p.x_gap = 0) (hyg : p.y_gap = 0)
    (_hlen : src.length = 4096) (hh1 : 1 ≤ h) (hh2 : h ≤ 256) (hX : X < 128) (hY : Y < h) :
    (panel_st75256_draw_bitmap env p 0 0 128 (h : Int) src w).2.trace
      = w.trace ++
        [cmd 0x30, cmd 0x15, data [0, h - 1], cmd 0x75, data [0, 15], cmd 0x5C,
         Event.tx_color (-1)
           (st75256_remap_swapped_frame src (List.replicate (16 * 256) 0)) (16 * h)] ∧
    ((st75256_remap_swapped_frame src (List.replicate (16 * 256) 0)).take (16 * h)).length
      = 16 * h ∧
    (((st75256_remap_swapped_frame src (List.replicate (16 * 256) 0)).take (16 * h)).getD
        (Y * 16 + X / 8) 0).testBit (X % 8)
      = (src.getD (X + (Y / 8) * 128) 0).testBit (Y % 8) := by
  refine ⟨?_, ?_, ?_⟩
  · rw [draw_ok env hok, rect_swapped p _ _ _ _ hswap hmir hxg hyg,
      drawScript_in_range _ _ (le_refl 0) (by simp only; omega) (by simp only; omega)
        (le_refl 0) (by simp only; omega) (by simp only; omega), hswap]
    have e1 : ((h : Int) - 1).toNat = h - 1 := by omega
    have e2 : ((((128 : Int) - 1) / 8 - 0 / 8 + 1) * ((h : Int) - 0)).toNat = 16 * h := by
      have : (((128 : Int) - 1) / 8 - 0 / 8 + 1) * ((h : Int) - 0) = 16 * (h : Int) := by
        norm_num
      rw [this]
      omega
    simp only [e1, e2, if_true]
    rfl
  · rw [List.length_take, remap_length, List.length_replicate]
    omega
  · rw [take_getD _ _ _ (by omega), remap_zero_testBit]
    have hidx : ((Y * 16 + X / 8) % 16) * 8 + X % 8 + ((Y * 16 + X / 8) / 16 / 8) * 128
        = X + (Y / 8) * 128 := by omega
    have hbt : (Y * 16 + X / 8) / 16 % 8 = Y % 8 := by omega
    have hd : decide (Y * 16 + X / 8 < 4096 ∧ X % 8 < 8) = true := by
      simp only [decide_eq_true_eq]
      omega
    rw [hidx, hbt, hd, Bool.true_and]

/-- Witness for C26: h = 8 on the portrait panel: 128 bytes, pixel X = 5,
Y = 3. -/
theorem draw_swapped_payload_rows_witness :
    (panel_st75256_draw_bitmap okEnv portrait_panel 0 0 128 ((8 : Nat) : Int)
        (List.replicate 4096 0x08) World.fresh).2.trace
      = World.fresh.trace ++
        [cmd 0x30, cmd 0x15, data [0, 8 - 1], cmd 0x75, data [0, 15], cmd 0x5C,
         Event.tx_color (-1)
           (st75256_remap_swapped_frame (List.replicate 4096 0x08)
             (List.replicate (16 * 256) 0)) (16 * 8)] ∧
    ((st75256_remap_swapped_frame (List.replicate 4096 0x08)
        (List.replicate (16 * 256) 0)).take (16 * 8)).length = 16 * 8 ∧
    (((st75256_remap_swapped_frame (List.replicate 4096 0x08)
        (List.replicate (16 * 256) 0)).take (16 * 8)).getD (3 * 16 + 5 / 8) 0).testBit (5 % 8)
      = ((List.replicate 4096 0x08).getD (5 + (3 / 8) * 128) 0).testBit (3 % 8) :=
  draw_swapped_payload_rows okEnv portrait_panel 8 (List.replicate 4096 0x08) World.fresh 5 3
    (fun _ => rfl) rfl rfl rfl rfl (List.length_replicate _ _) (by decide) (by decide)
    (by decide) (by decide)

end ST75256
